import Mathlib

/-!
Verification of the resource-lifecycle orchestrator (`stream-manager.ts`).

The script drives three layers of cloud resources (an auto-scaling group of
inspection appliances, MediaConnect flows, MediaLive channels) through
ordered start/stop sequences with polling waits.  We embed it shallowly:

* External AWS CLI calls are modelled by an `Env` record: each call site
  reads its (pure) response from `Env`.  Describe-style calls that the
  script polls repeatedly are functions of a logical clock, which advances
  by one tick per `setTimeout` sleep (each sleep in the script is one poll
  interval; describe calls themselves take no model time).
* Execution is a writer/except/clock monad `M`: a run produces the ordered
  list of observable `Event`s (log lines, AWS calls with their responses,
  sleeps), the final clock, and either a value or a thrown error message.
* The poll loops `while (Date.now() - startTime < TIMEOUT_MS)` sleep
  `POLL_INTERVAL_MS` once per iteration, so they run exactly
  `TIMEOUT_MS / POLL_INTERVAL_MS` iterations before timing out; we embed
  them as fuelled recursion with that fuel.
-/

namespace StreamManager

/-- Configuration: `TIMEOUT_MS = 300000` (5 minutes). -/
def TIMEOUT_MS : Nat := 300000

/-- Configuration: `POLL_INTERVAL_MS = 10000` (10 seconds). -/
def POLL_INTERVAL_MS : Nat := 10000

/-- Number of iterations a poll loop performs before its time ceiling. -/
def maxPolls : Nat := TIMEOUT_MS / POLL_INTERVAL_MS

def DEFAULT_STACK_NAME : String := "StreamInspectionBlogStack"

def DEFAULT_REGION : String := "us-west-2"

/-- Constructor arguments of the `StreamManager` class. -/
structure Config where
  stackName : String
  region : String
deriving Repr, DecidableEq

def cfg0 : Config := { stackName := DEFAULT_STACK_NAME, region := DEFAULT_REGION }

/-- JavaScript `String.prototype.includes` on character lists. -/
def listStartsWith : List Char → List Char → Bool
  | [], _ => true
  | _ :: _, [] => false
  | a :: as, b :: bs => a == b && listStartsWith as bs

def listContainsSub (sub : List Char) : List Char → Bool
  | [] => sub.isEmpty
  | c :: rest => listStartsWith sub (c :: rest) || listContainsSub sub rest

/-- `s.includes sub`: substring containment, as in JavaScript. -/
def includes (s sub : String) : Bool := listContainsSub sub.data s.data

/-- `interface Flow { name, arn }` -/
structure Flow where
  name : String
  arn : String
deriving Repr, DecidableEq

/-- `interface Channel { name, id }` -/
structure Channel where
  name : String
  id : String
deriving Repr, DecidableEq

/-- `interface AutoScalingGroup { name, targetGroupArn? }` -/
structure AutoScalingGroup where
  name : String
  targetGroupArn : Option String
deriving Repr, DecidableEq

/-- One entry of `Stacks[0].Outputs` in a `describe-stacks` response. -/
structure StackOutput where
  outputKey : String
  outputValue : String
deriving Repr, DecidableEq

/-- One entry of `Stacks` in a `describe-stacks` response. -/
structure Stack where
  outputs : List StackOutput
deriving Repr, DecidableEq

/-- `Stacks[0]?.Outputs || []` -/
def stacksOutputs : List Stack → List StackOutput
  | [] => []
  | s :: _ => s.outputs

/-- One entry of `Channels` in a `list-channels` response. -/
structure ChannelDescription where
  name : String
  id : String
deriving Repr, DecidableEq

/-- A `{ Key, Value }` tag record. -/
structure Tag where
  key : String
  value : String
deriving Repr, DecidableEq

/-- One entry of `AutoScalingGroups` in the discovery `describe-auto-scaling-groups`. -/
structure AsgDescription where
  autoScalingGroupName : String
  tagList : List Tag
  targetGroupARNs : List String
deriving Repr, DecidableEq

/-- One entry of `Instances` in a scoped `describe-auto-scaling-groups`. -/
structure AsgInstance where
  lifecycleState : String
deriving Repr, DecidableEq

/-- `AutoScalingGroups[0]` of a scoped `describe-auto-scaling-groups`. -/
structure AsgStatus where
  instances : List AsgInstance
  desiredCapacity : Nat
deriving Repr, DecidableEq

/-- One entry of `TargetHealthDescriptions` (its `TargetHealth?.State`). -/
structure TargetHealthDescription where
  state : String
deriving Repr, DecidableEq

/-- Discovered mutable fields of the `StreamManager` instance. -/
structure ManagerState where
  flows : List Flow
  channels : List Channel
  autoScalingGroup : Option AutoScalingGroup
deriving Repr, DecidableEq

/-- Decidable equality for `Except`, needed to derive it for `Event`. -/
instance {e a : Type} [DecidableEq e] [DecidableEq a] : DecidableEq (Except e a) := fun x y =>
  match x, y with
  | Except.ok u, Except.ok v =>
      if h : u = v then Decidable.isTrue (by rw [h]) else Decidable.isFalse (by simp [h])
  | Except.error u, Except.error v =>
      if h : u = v then Decidable.isTrue (by rw [h]) else Decidable.isFalse (by simp [h])
  | Except.ok _, Except.error _ => Decidable.isFalse (by simp)
  | Except.error _, Except.ok _ => Decidable.isFalse (by simp)

/-- Observable events of a run: log lines (message and color), sleeps, and
AWS CLI invocations together with the response the environment returned. -/
inductive Event where
  | log (msg : String) (color : String)
  | sleep (ms : Nat)
  | awsDescribeStacks (r : Except String (List Stack))
  | awsListChannels (r : Except String (List ChannelDescription))
  | awsDescribeASGs (r : Except String (List AsgDescription))
  | awsSetDesiredCapacity (name : String) (cap : Nat) (r : Except String Unit)
  | awsDescribeAsgStatus (name : String) (r : Except String (Option AsgStatus))
  | awsDescribeTargetHealth (tgArn : String) (r : Except String (List TargetHealthDescription))
  | awsStartFlow (arn : String) (r : Except String Unit)
  | awsStopFlow (arn : String) (r : Except String Unit)
  | awsStartChannel (id : String) (r : Except String Unit)
  | awsStopChannel (id : String) (r : Except String Unit)
  | awsDescribeFlow (arn : String) (r : Except String (Option String))
  | awsDescribeChannel (id : String) (r : Except String (Option String))
deriving Repr, DecidableEq

/-- The environment: responses of the cloud control plane.  Calls that the
script polls take the logical clock as first argument. -/
structure Env where
  describeStacks : Except String (List Stack)
  listChannels : Except String (List ChannelDescription)
  describeASGs : Except String (List AsgDescription)
  setDesiredCapacity : String → Nat → Except String Unit
  describeAsgStatus : Nat → String → Except String (Option AsgStatus)
  describeTargetHealth : Nat → String → Except String (List TargetHealthDescription)
  startFlow : String → Except String Unit
  stopFlow : String → Except String Unit
  startChannel : String → Except String Unit
  stopChannel : String → Except String Unit
  describeFlow : Nat → String → Except String (Option String)
  describeChannel : Nat → String → Except String (Option String)

/-- Result of running a computation from a given clock. -/
structure Out (α : Type) where
  events : List Event
  clock : Nat
  result : Except String α
deriving Repr

/-- The execution monad: clock in, events + clock + result out. -/
def M (α : Type) : Type := Nat → Out α

def M.pure {α : Type} (a : α) : M α := fun c => ⟨[], c, Except.ok a⟩

def M.bind {α β : Type} (x : M α) (f : α → M β) : M β := fun c =>
  match x c with
  | ⟨es, c', Except.ok a⟩ =>
      ⟨es ++ (f a c').events, (f a c').clock, (f a c').result⟩
  | ⟨es, c', Except.error m⟩ => ⟨es, c', Except.error m⟩

instance : Monad M where
  pure := M.pure
  bind := M.bind

/-- `this.log(message, color)` -/
def logM (msg color : String) : M Unit := fun c => ⟨[Event.log msg color], c, Except.ok ()⟩

/-- `await new Promise(resolve => setTimeout(resolve, ms))`; one clock tick. -/
def sleepM (ms : Nat) : M Unit := fun c => ⟨[Event.sleep ms], c + 1, Except.ok ()⟩

/-- Record an AWS CLI invocation (whose outcome the caller inspects itself). -/
def emitM (e : Event) : M Unit := fun c => ⟨[e], c, Except.ok ()⟩

/-- Record a clock-dependent AWS CLI invocation and return its response. -/
def callAwsT {α : Type} (ev : Nat → Event) (f : Nat → Except String α) :
    M (Except String α) := fun c => ⟨[ev c], c, Except.ok (f c)⟩

/-- `throw new Error(msg)` -/
def throwM {α : Type} (msg : String) : M α := fun c => ⟨[], c, Except.error msg⟩

/-- The side-effecting `find` callback in ASG discovery: logs every scanned
candidate that matches either criterion, returns the first match. -/
def findSecurityASG (cfg : Config) : List AsgDescription → M (Option AsgDescription)
  | [] => M.pure none
  | asg :: rest => do
      let hasSecurityAppliance := includes asg.autoScalingGroupName "SecurityAppliance"
      let hasStackTag := asg.tagList.any
        (fun t => t.key == "aws:cloudformation:stack-name" && t.value == cfg.stackName)
      if hasSecurityAppliance || hasStackTag then do
        logM ("🔍 Checking ASG: " ++ asg.autoScalingGroupName ++ " (SecurityAppliance: " ++
          toString hasSecurityAppliance ++ ", StackTag: " ++ toString hasStackTag ++ ")") "cyan"
        M.pure (some asg)
      else
        findSecurityASG cfg rest

/-- `private async discoverResources()`: populates flows, channels and the
auto-scaling group.  Only a failing `describe-stacks` call escapes (rethrown
with a `Failed to discover resources: ` prefix); the channel-list and ASG
lookups catch their own errors and degrade to warnings. -/
def discoverResources (env : Env) (cfg : Config) : M ManagerState := do
  logM "🔍 Discovering resources..." "blue"
  emitM (Event.awsDescribeStacks env.describeStacks)
  match env.describeStacks with
  | Except.error m => throwM ("Failed to discover resources: " ++ m)
  | Except.ok stackList => do
      let outputs := stacksOutputs stackList
      let flows := (outputs.filter (fun o => includes o.outputKey "FlowArn")).map
        (fun o => ({ name := o.outputKey, arn := o.outputValue } : Flow))
      emitM (Event.awsListChannels env.listChannels)
      let channels ←
        (match env.listChannels with
         | Except.ok chans =>
             M.pure ((chans.filter
                 (fun ch => includes ch.name "Stream" || includes ch.name cfg.stackName)).map
               (fun ch => ({ name := ch.name, id := ch.id } : Channel)))
         | Except.error _ => do
             logM "⚠️  Could not list MediaLive channels" "yellow"
             M.pure ([] : List Channel))
      emitM (Event.awsDescribeASGs env.describeASGs)
      let asg ←
        (match env.describeASGs with
         | Except.ok asgs => do
             logM ("🔍 Found " ++ toString asgs.length ++ " Auto Scaling Groups") "cyan"
             let securityASG ← findSecurityASG cfg asgs
             match securityASG with
             | some a => do
                 logM ("✅ Found ASG: " ++ a.autoScalingGroupName) "green"
                 M.pure (some ({ name := a.autoScalingGroupName,
                                 targetGroupArn := a.targetGroupARNs.head? } : AutoScalingGroup))
             | none => do
                 logM "⚠️  No matching Auto Scaling Group found" "yellow"
                 M.pure (none : Option AutoScalingGroup)
         | Except.error m => do
             logM ("⚠️  Could not find Auto Scaling Group: Error: " ++ m) "yellow"
             M.pure (none : Option AutoScalingGroup))
      logM ("✅ Found " ++ toString flows.length ++ " flows, " ++ toString channels.length ++
        " channels, " ++ (if asg.isSome then "1 ASG" else "0 ASG")) "green"
      M.pure ({ flows := flows, channels := channels, autoScalingGroup := asg } : ManagerState)

/-- Body of `setAutoScalingGroupCapacity` after the null guard on the
discovered group. -/
def setAutoScalingGroupCapacityGo (env : Env) (desiredCapacity : Nat) :
    Option AutoScalingGroup → M Unit
  | none => logM "⚠️  No Auto Scaling Group found" "yellow"
  | some g => do
      logM ("🔧 Setting ASG desired capacity to " ++ toString desiredCapacity ++ "...") "blue"
      emitM (Event.awsSetDesiredCapacity g.name desiredCapacity
        (env.setDesiredCapacity g.name desiredCapacity))
      (match env.setDesiredCapacity g.name desiredCapacity with
       | Except.ok _ => logM ("✅ Set ASG desired capacity to " ++ toString desiredCapacity) "green"
       | Except.error m => throwM ("Failed to set ASG capacity: " ++ m))

/-- `private async setAutoScalingGroupCapacity(desiredCapacity)`: throws
`Failed to set ASG capacity: ...` when the control-plane call itself errors;
silently (with a warning) a no-op when no ASG was discovered. -/
def setAutoScalingGroupCapacity (env : Env) (st : ManagerState) (desiredCapacity : Nat) :
    M Unit := setAutoScalingGroupCapacityGo env desiredCapacity st.autoScalingGroup

/-- Body of the `waitForTargetsHealthy` poll loop, fuelled by the number of
iterations remaining before the 5-minute ceiling. -/
def waitForTargetsHealthyLoop (env : Env) (tgArn : String) : Nat → M Unit
  | 0 => logM "⚠️  Timeout waiting for targets to be healthy" "yellow"
  | fuel + 1 => do
      let r ← callAwsT (fun c => Event.awsDescribeTargetHealth tgArn (env.describeTargetHealth c tgArn))
        (fun c => env.describeTargetHealth c tgArn)
      match r with
      | Except.ok targets =>
          if targets.length = 0 then do
            logM "⏳ No targets registered yet..." "yellow"
            sleepM POLL_INTERVAL_MS
            waitForTargetsHealthyLoop env tgArn fuel
          else do
            let healthyTargets := targets.filter (fun t => t.state == "healthy")
            logM ("📊 Healthy targets: " ++ toString healthyTargets.length ++ "/" ++
              toString targets.length) "cyan"
            if healthyTargets.length ≥ 2 then
              logM "✅ GWLB targets are healthy" "green"
            else do
              sleepM POLL_INTERVAL_MS
              waitForTargetsHealthyLoop env tgArn fuel
      | Except.error m => do
          logM ("⚠️  Error checking target health: " ++ m) "yellow"
          sleepM POLL_INTERVAL_MS
          waitForTargetsHealthyLoop env tgArn fuel

/-- `private async waitForTargetsHealthy()` -/
def waitForTargetsHealthy (env : Env) (st : ManagerState) : M Unit :=
  match st.autoScalingGroup with
  | none => logM "⚠️  No target group found for health checks" "yellow"
  | some g =>
      match g.targetGroupArn with
      | none => logM "⚠️  No target group found for health checks" "yellow"
      | some tgArn => do
          logM "⏳ Waiting for GWLB targets to be healthy..." "yellow"
          waitForTargetsHealthyLoop env tgArn maxPolls

/-- Body of the `waitForAutoScalingGroup` poll loop. -/
def waitForAutoScalingGroupLoop (env : Env) (name : String) (targetCapacity : Nat) :
    Nat → M Unit
  | 0 => logM "⚠️  Timeout waiting for ASG to reach target capacity" "yellow"
  | fuel + 1 => do
      let r ← callAwsT (fun c => Event.awsDescribeAsgStatus name (env.describeAsgStatus c name))
        (fun c => env.describeAsgStatus c name)
      match r with
      | Except.ok (some asg) => do
          let currentCapacity := asg.instances.length
          let inServiceInstances :=
            (asg.instances.filter (fun i => i.lifecycleState == "InService")).length
          logM ("📊 ASG instances: " ++ toString inServiceInstances ++ "/" ++
            toString currentCapacity ++ " in service, target: " ++ toString targetCapacity) "cyan"
          if targetCapacity = 0 then
            if currentCapacity = 0 then
              logM "✅ ASG scaled down to 0" "green"
            else do
              sleepM POLL_INTERVAL_MS
              waitForAutoScalingGroupLoop env name targetCapacity fuel
          else
            if inServiceInstances ≥ targetCapacity then
              logM ("✅ ASG scaled up to " ++ toString targetCapacity) "green"
            else do
              sleepM POLL_INTERVAL_MS
              waitForAutoScalingGroupLoop env name targetCapacity fuel
      | Except.ok none => do
          sleepM POLL_INTERVAL_MS
          waitForAutoScalingGroupLoop env name targetCapacity fuel
      | Except.error m => do
          logM ("⚠️  Error checking ASG status: " ++ m) "yellow"
          sleepM POLL_INTERVAL_MS
          waitForAutoScalingGroupLoop env name targetCapacity fuel

/-- `private async waitForAutoScalingGroup(targetCapacity)` -/
def waitForAutoScalingGroup (env : Env) (st : ManagerState) (targetCapacity : Nat) : M Unit :=
  match st.autoScalingGroup with
  | none => M.pure ()
  | some g => do
      logM ("⏳ Waiting for ASG to reach desired capacity of " ++ toString targetCapacity ++
        "...") "yellow"
      waitForAutoScalingGroupLoop env g.name targetCapacity maxPolls

/-- The `for (const flow of this.flows)` body of `startFlows`. -/
def startFlowsEach (env : Env) : List Flow → M Unit
  | [] => M.pure ()
  | flow :: rest => do
      emitM (Event.awsStartFlow flow.arn (env.startFlow flow.arn))
      (match env.startFlow flow.arn with
       | Except.ok _ => logM ("✅ Started " ++ flow.name) "green"
       | Except.error m =>
           if includes m "STANDBY" then
             logM ("⚠️  " ++ flow.name ++ " already running") "yellow"
           else
             logM ("❌ Failed to start " ++ flow.name ++ ": " ++ m) "red")
      startFlowsEach env rest

/-- `private async startFlows()` -/
def startFlows (env : Env) (flows : List Flow) : M Unit :=
  if flows.length = 0 then M.pure () else do
    logM "🚀 Starting MediaConnect flows..." "blue"
    startFlowsEach env flows

/-- The `for (const flow of this.flows)` body of `stopFlows`. -/
def stopFlowsEach (env : Env) : List Flow → M Unit
  | [] => M.pure ()
  | flow :: rest => do
      emitM (Event.awsStopFlow flow.arn (env.stopFlow flow.arn))
      (match env.stopFlow flow.arn with
       | Except.ok _ => logM ("✅ Stopped " ++ flow.name) "green"
       | Except.error m =>
           if includes m "ACTIVE" then
             logM ("⚠️  " ++ flow.name ++ " already stopped") "yellow"
           else
             logM ("❌ Failed to stop " ++ flow.name ++ ": " ++ m) "red")
      stopFlowsEach env rest

/-- `private async stopFlows()` -/
def stopFlows (env : Env) (flows : List Flow) : M Unit :=
  if flows.length = 0 then M.pure () else do
    logM "🛑 Stopping MediaConnect flows..." "blue"
    stopFlowsEach env flows

/-- The `for (const channel of this.channels)` body of `startChannels`. -/
def startChannelsEach (env : Env) : List Channel → M Unit
  | [] => M.pure ()
  | channel :: rest => do
      emitM (Event.awsStartChannel channel.id (env.startChannel channel.id))
      (match env.startChannel channel.id with
       | Except.ok _ => logM ("✅ Started " ++ channel.name) "green"
       | Except.error m =>
           if includes m "IDLE" then
             logM ("⚠️  " ++ channel.name ++ " already running") "yellow"
           else
             logM ("❌ Failed to start " ++ channel.name ++ ": " ++ m) "red")
      startChannelsEach env rest

/-- `private async startChannels()` -/
def startChannels (env : Env) (channels : List Channel) : M Unit :=
  if channels.length = 0 then M.pure () else do
    logM "🚀 Starting MediaLive channels..." "blue"
    startChannelsEach env channels

/-- The `for (const channel of this.channels)` body of `stopChannels`. -/
def stopChannelsEach (env : Env) : List Channel → M Unit
  | [] => M.pure ()
  | channel :: rest => do
      emitM (Event.awsStopChannel channel.id (env.stopChannel channel.id))
      (match env.stopChannel channel.id with
       | Except.ok _ => logM ("✅ Stopped " ++ channel.name) "green"
       | Except.error m =>
           if includes m "RUNNING" then
             logM ("⚠️  " ++ channel.name ++ " already stopped") "yellow"
           else
             logM ("❌ Failed to stop " ++ channel.name ++ ": " ++ m) "red")
      stopChannelsEach env rest

/-- `private async stopChannels()` -/
def stopChannels (env : Env) (channels : List Channel) : M Unit :=
  if channels.length = 0 then M.pure () else do
    logM "🛑 Stopping MediaLive channels..." "blue"
    stopChannelsEach env channels

/-- The per-flow check round of `waitForFlows` (`allReady` with early
`break`; a failed describe or a status that is neither the target nor
`ERROR` makes the round not ready). -/
def checkFlowsReady (env : Env) (targetState : String) : List Flow → M Bool
  | [] => M.pure true
  | flow :: rest => do
      let r ← callAwsT (fun c => Event.awsDescribeFlow flow.arn (env.describeFlow c flow.arn))
        (fun c => env.describeFlow c flow.arn)
      match r with
      | Except.ok statusOpt =>
          if !(statusOpt == some targetState) && !(statusOpt == some "ERROR") then
            M.pure false
          else
            checkFlowsReady env targetState rest
      | Except.error _ => M.pure false

/-- Body of the `waitForFlows` poll loop. -/
def waitForFlowsLoop (env : Env) (flows : List Flow) (targetState : String) : Nat → M Unit
  | 0 => logM "⚠️  Timeout waiting for flows" "yellow"
  | fuel + 1 => do
      let allReady ← checkFlowsReady env targetState flows
      if allReady then
        logM "✅ Flows ready" "green"
      else do
        sleepM POLL_INTERVAL_MS
        waitForFlowsLoop env flows targetState fuel

/-- `private async waitForFlows(targetState)` -/
def waitForFlows (env : Env) (flows : List Flow) (targetState : String) : M Unit :=
  if flows.length = 0 then M.pure () else do
    logM ("⏳ Waiting for flows to reach " ++ targetState ++ "...") "yellow"
    waitForFlowsLoop env flows targetState maxPolls

/-- The per-channel check round of `waitForChannels`. -/
def checkChannelsReady (env : Env) (targetState : String) : List Channel → M Bool
  | [] => M.pure true
  | channel :: rest => do
      let r ← callAwsT
        (fun c => Event.awsDescribeChannel channel.id (env.describeChannel c channel.id))
        (fun c => env.describeChannel c channel.id)
      match r with
      | Except.ok stateOpt =>
          if !(stateOpt == some targetState) && !(stateOpt == some "ERROR") then
            M.pure false
          else
            checkChannelsReady env targetState rest
      | Except.error _ => M.pure false

/-- Body of the `waitForChannels` poll loop. -/
def waitForChannelsLoop (env : Env) (channels : List Channel) (targetState : String) :
    Nat → M Unit
  | 0 => logM "⚠️  Timeout waiting for channels" "yellow"
  | fuel + 1 => do
      let allReady ← checkChannelsReady env targetState channels
      if allReady then
        logM "✅ Channels ready" "green"
      else do
        sleepM POLL_INTERVAL_MS
        waitForChannelsLoop env channels targetState fuel

/-- `private async waitForChannels(targetState)` -/
def waitForChannels (env : Env) (channels : List Channel) (targetState : String) : M Unit :=
  if channels.length = 0 then M.pure () else do
    logM ("⏳ Waiting for channels to reach " ++ targetState ++ "...") "yellow"
    waitForChannelsLoop env channels targetState maxPolls

/-- Per-flow section of `showStatus`. -/
def flowStatusEach (env : Env) : List Flow → M Unit
  | [] => M.pure ()
  | flow :: rest => do
      let r ← callAwsT (fun c => Event.awsDescribeFlow flow.arn (env.describeFlow c flow.arn))
        (fun c => env.describeFlow c flow.arn)
      (match r with
       | Except.ok statusOpt =>
           logM ("  Flow " ++ flow.name ++ ": " ++ statusOpt.getD "UNKNOWN")
             (if statusOpt.getD "UNKNOWN" == "ACTIVE" then "green"
              else if statusOpt.getD "UNKNOWN" == "ERROR" then "red" else "yellow")
       | Except.error _ => logM ("  Flow " ++ flow.name ++ ": ERROR") "red")
      flowStatusEach env rest

/-- Per-channel section of `showStatus`. -/
def channelStatusEach (env : Env) : List Channel → M Unit
  | [] => M.pure ()
  | channel :: rest => do
      let r ← callAwsT
        (fun c => Event.awsDescribeChannel channel.id (env.describeChannel c channel.id))
        (fun c => env.describeChannel c channel.id)
      (match r with
       | Except.ok stateOpt =>
           logM ("  Channel " ++ channel.name ++ ": " ++ stateOpt.getD "UNKNOWN")
             (if stateOpt.getD "UNKNOWN" == "RUNNING" then "green"
              else if stateOpt.getD "UNKNOWN" == "ERROR" then "red" else "yellow")
       | Except.error _ => logM ("  Channel " ++ channel.name ++ ": ERROR") "red")
      channelStatusEach env rest

/-- ASG + target-health section of `showStatus`; every error is caught. -/
def asgStatusSection (env : Env) (st : ManagerState) : M Unit :=
  match st.autoScalingGroup with
  | none => M.pure ()
  | some g => do
      let r ← callAwsT (fun c => Event.awsDescribeAsgStatus g.name (env.describeAsgStatus c g.name))
        (fun c => env.describeAsgStatus c g.name)
      match r with
      | Except.ok (some asg) => do
          let currentCapacity := asg.instances.length
          let inServiceInstances :=
            (asg.instances.filter (fun i => i.lifecycleState == "InService")).length
          let desiredCapacity := asg.desiredCapacity
          let color := if inServiceInstances ≥ 2 then "green"
            else if inServiceInstances > 0 then "yellow" else "red"
          logM ("  ASG " ++ g.name ++ ": " ++ toString inServiceInstances ++ "/" ++
            toString currentCapacity ++ " in service (desired: " ++
            toString desiredCapacity ++ ")") color
          match g.targetGroupArn with
          | none => M.pure ()
          | some tgArn => do
              let tr ← callAwsT
                (fun c => Event.awsDescribeTargetHealth tgArn (env.describeTargetHealth c tgArn))
                (fun c => env.describeTargetHealth c tgArn)
              match tr with
              | Except.ok targets => do
                  let healthyTargets :=
                    (targets.filter (fun t => t.state == "healthy")).length
                  let targetColor := if healthyTargets ≥ 2 then "green"
                    else if healthyTargets > 0 then "yellow" else "red"
                  logM ("  GWLB Targets: " ++ toString healthyTargets ++ "/" ++
                    toString targets.length ++ " healthy") targetColor
              | Except.error _ => logM "  GWLB Targets: Unable to check" "yellow"
      | Except.ok none => M.pure ()
      | Except.error _ => logM ("  ASG " ++ g.name ++ ": ERROR") "red"

/-- `private async showStatus()`: the consolidated status report, printed
as log lines; all of its describe errors are caught locally. -/
def showStatus (env : Env) (st : ManagerState) : M Unit := do
  logM "📊 Status" "blue"
  asgStatusSection env st
  flowStatusEach env st.flows
  channelStatusEach env st.channels

/-- `async start()` -/
def start (env : Env) (cfg : Config) : M Unit := do
  logM "🚀 Starting streaming infrastructure" "green"
  let st ← discoverResources env cfg
  setAutoScalingGroupCapacity env st 2
  waitForAutoScalingGroup env st 2
  waitForTargetsHealthy env st
  startFlows env st.flows
  waitForFlows env st.flows "ACTIVE"
  startChannels env st.channels
  waitForChannels env st.channels "RUNNING"
  logM "✅ Start complete" "green"
  showStatus env st

/-- `async stop()` -/
def stop (env : Env) (cfg : Config) : M Unit := do
  logM "🛑 Stopping streaming infrastructure" "yellow"
  let st ← discoverResources env cfg
  stopChannels env st.channels
  waitForChannels env st.channels "IDLE"
  stopFlows env st.flows
  waitForFlows env st.flows "STANDBY"
  setAutoScalingGroupCapacity env st 0
  waitForAutoScalingGroup env st 0
  logM "✅ Stop complete" "green"
  showStatus env st

/-- `async restart()`: `stop()`, a fixed 10-second delay, `start()`.  A
rejection of `stop()` propagates: the delay and `start()` are not reached. -/
def restart (env : Env) (cfg : Config) : M Unit := do
  stop env cfg
  logM "⏳ Waiting 10 seconds..." "yellow"
  sleepM 10000
  start env cfg

/-- `async status()` -/
def statusCmd (env : Env) (cfg : Config) : M Unit := do
  let st ← discoverResources env cfg
  showStatus env st

/-- The `switch (command)` dispatch in `main()`. -/
def runCommand (env : Env) (cfg : Config) : String → M Unit
  | "start" => start env cfg
  | "stop" => stop env cfg
  | "status" => statusCmd env cfg
  | "restart" => restart env cfg
  | _ => M.pure ()

/-- `async function main()`, reduced to its observable behaviour: run the
requested command from clock 0; on a thrown error print a red `Error:` line
and exit 1, otherwise exit 0 (an unknown command prints usage, exits 1). -/
def mainRun (env : Env) (cfg : Config) (command : String) : List Event × Nat :=
  if command = "start" ∨ command = "stop" ∨ command = "status" ∨ command = "restart" then
    let o := runCommand env cfg command 0
    match o.result with
    | Except.ok _ => (o.events, 0)
    | Except.error m => (o.events ++ [Event.log ("Error: " ++ m) "red"], 1)
  else
    ([Event.log "usage" "reset"], 1)

/-!
## Classification of events

Helpers used to state the claims: a numeric constructor tag, membership
predicates derived from it, and trace-level properties.
-/

/-- Constructor tag of an event. -/
def Event.kind : Event → Nat
  | Event.log .. => 0
  | Event.sleep .. => 1
  | Event.awsDescribeStacks .. => 2
  | Event.awsListChannels .. => 3
  | Event.awsDescribeASGs .. => 4
  | Event.awsSetDesiredCapacity .. => 5
  | Event.awsDescribeAsgStatus .. => 6
  | Event.awsDescribeTargetHealth .. => 7
  | Event.awsStartFlow .. => 8
  | Event.awsStopFlow .. => 9
  | Event.awsStartChannel .. => 10
  | Event.awsStopChannel .. => 11
  | Event.awsDescribeFlow .. => 12
  | Event.awsDescribeChannel .. => 13

/-- Is this event a `start-channel` call? -/
def isStartChannelEv (e : Event) : Bool := e.kind == 10

/-- Is this event a `start-flow` call? -/
def isStartFlowEv (e : Event) : Bool := e.kind == 8

/-- Does this event observe flow `arn` in the `ACTIVE` state? -/
def observesFlowActive (arn : String) : Event → Bool
  | Event.awsDescribeFlow a (Except.ok (some s)) => a == arn && s == "ACTIVE"
  | _ => false

/-- Claim C1 as a trace property: every `start-channel` call in the trace is
preceded (strictly earlier in the trace) by an `ACTIVE` observation of every
flow in `arns`. -/
def channelStartsAfterFlowsActive (es : List Event) (arns : List String) : Bool :=
  es.enum.all (fun p =>
    !(isStartChannelEv p.2) ||
      arns.all (fun arn => (es.take p.1).any (observesFlowActive arn)))

/-- Did this AWS call event carry an error response? -/
def isErroredCall : Event → Bool
  | Event.log .. => false
  | Event.sleep .. => false
  | Event.awsDescribeStacks r => r.toBool == false
  | Event.awsListChannels r => r.toBool == false
  | Event.awsDescribeASGs r => r.toBool == false
  | Event.awsSetDesiredCapacity _ _ r => r.toBool == false
  | Event.awsDescribeAsgStatus _ r => r.toBool == false
  | Event.awsDescribeTargetHealth _ r => r.toBool == false
  | Event.awsStartFlow _ r => r.toBool == false
  | Event.awsStopFlow _ r => r.toBool == false
  | Event.awsStartChannel _ r => r.toBool == false
  | Event.awsStopChannel _ r => r.toBool == false
  | Event.awsDescribeFlow _ r => r.toBool == false
  | Event.awsDescribeChannel _ r => r.toBool == false

/-- Is this a warning-or-higher log line (the script logs warnings in
yellow and errors in red)? -/
def isWarnLog : Event → Bool
  | Event.log _ c => c == "yellow" || c == "red"
  | _ => false

/-- Claim C3 as a trace property: every AWS call that returned an error is
immediately followed by a warning-or-higher log line (this is exactly what
every `catch`-and-log site produces, and what a rethrow produces once
`main` prints the red `Error:` line). -/
def errorsLogged : List Event → Bool
  | [] => true
  | [e] => !(isErroredCall e)
  | e :: f :: rest => (!(isErroredCall e) || isWarnLog f) && errorsLogged (f :: rest)

/-- Phase of an event kind inside `stop()`: channel-stop calls are phase 1,
flow-stop calls phase 2, capacity adjustments phase 3, all else 0. -/
def phaseOfKind (j : Nat) : Nat :=
  if j = 11 then 1 else if j = 9 then 2 else if j = 5 then 3 else 0

/-- Phase of an event inside `stop()`. -/
def Event.stopPhase (e : Event) : Nat := phaseOfKind e.kind

/-- The sequence of nonzero stop-phases of a trace, in trace order. -/
def phasesOf (es : List Event) : List Nat :=
  (es.filter (fun e => e.stopPhase != 0)).map Event.stopPhase

/-- Flow-wait completion markers: the two log lines that terminate the
`waitForFlows` poll loop (convergence and timeout respectively). -/
def isFlowWaitDone (e : Event) : Bool :=
  e == Event.log "✅ Flows ready" "green" || e == Event.log "⚠️  Timeout waiting for flows" "yellow"

/-- Is this a red (error-level) log line? -/
def isRedLog : Event → Bool
  | Event.log _ c => c == "red"
  | _ => false

/-- The flow-wait readiness test of one flow: the describe call at clock `c`
succeeded and reported the target state or `ERROR` (an undefined status, a
different status, or a failed describe all count as not ready). -/
def flowObservedReady (env : Env) (ts : String) (c : Nat) (f : Flow) : Bool :=
  match env.describeFlow c f.arn with
  | Except.ok (some s) => s == ts || s == "ERROR"
  | _ => false

/-!
## Concrete environments

Inputs used for the concrete scenarios, counterexamples and witnesses.
-/

/-- The spec scenario: one pool (2 desired, initially 0 in service), two
flows, one channel; everything converges after one poll interval. -/
def envScenario : Env where
  describeStacks := Except.ok [⟨[⟨"Flow1FlowArn", "arn-flow1"⟩, ⟨"Flow2FlowArn", "arn-flow2"⟩]⟩]
  listChannels := Except.ok [⟨"StreamChannel", "ch-1"⟩]
  describeASGs := Except.ok [⟨"Stack-SecurityApplianceASG-XYZ", [], ["tg-arn-1"]⟩]
  setDesiredCapacity := fun _ _ => Except.ok ()
  describeAsgStatus := fun c _ =>
    if c = 0 then Except.ok (some ⟨[], 2⟩)
    else Except.ok (some ⟨[⟨"InService"⟩, ⟨"InService"⟩], 2⟩)
  describeTargetHealth := fun _ _ => Except.ok [⟨"healthy"⟩, ⟨"healthy"⟩]
  startFlow := fun _ => Except.ok ()
  stopFlow := fun _ => Except.ok ()
  startChannel := fun _ => Except.ok ()
  stopChannel := fun _ => Except.ok ()
  describeFlow := fun c _ =>
    if c = 0 then Except.ok (some "STANDBY") else Except.ok (some "ACTIVE")
  describeChannel := fun _ _ => Except.ok (some "RUNNING")

/-- One flow whose status is observed as `ERROR` forever (never `ACTIVE`),
one channel; no auto-scaling group.  The flow wait converges because the
script counts `ERROR` as ready. -/
def envFlowError : Env where
  describeStacks := Except.ok [⟨[⟨"Flow1FlowArn", "arn-flow1"⟩]⟩]
  listChannels := Except.ok [⟨"StreamChannel", "ch-1"⟩]
  describeASGs := Except.ok []
  setDesiredCapacity := fun _ _ => Except.ok ()
  describeAsgStatus := fun _ _ => Except.ok none
  describeTargetHealth := fun _ _ => Except.ok []
  startFlow := fun _ => Except.ok ()
  stopFlow := fun _ => Except.ok ()
  startChannel := fun _ => Except.ok ()
  stopChannel := fun _ => Except.ok ()
  describeFlow := fun _ _ => Except.ok (some "ERROR")
  describeChannel := fun _ _ => Except.ok (some "RUNNING")

/-- Like `envFlowError`, but the flow describe call fails (transport error)
at clock 0 and reports `ACTIVE` afterwards. -/
def envFlowDescribeFails : Env where
  describeStacks := Except.ok [⟨[⟨"Flow1FlowArn", "arn-flow1"⟩]⟩]
  listChannels := Except.ok [⟨"StreamChannel", "ch-1"⟩]
  describeASGs := Except.ok []
  setDesiredCapacity := fun _ _ => Except.ok ()
  describeAsgStatus := fun _ _ => Except.ok none
  describeTargetHealth := fun _ _ => Except.ok []
  startFlow := fun _ => Except.ok ()
  stopFlow := fun _ => Except.ok ()
  startChannel := fun _ => Except.ok ()
  stopChannel := fun _ => Except.ok ()
  describeFlow := fun c _ =>
    if c = 0 then Except.error "Command failed: connection timed out" else Except.ok (some "ACTIVE")
  describeChannel := fun _ _ => Except.ok (some "RUNNING")

/-- The `describe-stacks` call fails: discovery (and hence every command)
throws. -/
def envStacksFail : Env where
  describeStacks := Except.error "Command failed: boom"
  listChannels := Except.ok []
  describeASGs := Except.ok []
  setDesiredCapacity := fun _ _ => Except.ok ()
  describeAsgStatus := fun _ _ => Except.ok none
  describeTargetHealth := fun _ _ => Except.ok []
  startFlow := fun _ => Except.ok ()
  stopFlow := fun _ => Except.ok ()
  startChannel := fun _ => Except.ok ()
  stopChannel := fun _ => Except.ok ()
  describeFlow := fun _ _ => Except.ok none
  describeChannel := fun _ _ => Except.ok none

/-- The `list-channels` call fails (control plane unreachable for that
service) while `describe-stacks` succeeds. -/
def envListChFail : Env where
  describeStacks := Except.ok [⟨[⟨"Flow1FlowArn", "arn-flow1"⟩]⟩]
  listChannels := Except.error "Command failed: could not connect to the endpoint URL"
  describeASGs := Except.ok []
  setDesiredCapacity := fun _ _ => Except.ok ()
  describeAsgStatus := fun _ _ => Except.ok none
  describeTargetHealth := fun _ _ => Except.ok []
  startFlow := fun _ => Except.ok ()
  stopFlow := fun _ => Except.ok ()
  startChannel := fun _ => Except.ok ()
  stopChannel := fun _ => Except.ok ()
  describeFlow := fun _ _ => Except.ok (some "ACTIVE")
  describeChannel := fun _ _ => Except.ok (some "RUNNING")

/-- Discovery finds nothing: no FlowArn outputs, no matching channel names,
no matching auto-scaling group. -/
def envNoMatch : Env where
  describeStacks := Except.ok [⟨[⟨"SomeOtherOutput", "value-1"⟩]⟩]
  listChannels := Except.ok [⟨"OtherChannel", "ch-9"⟩]
  describeASGs := Except.ok [⟨"UnrelatedASG", [⟨"aws:cloudformation:stack-name", "OtherStack"⟩], []⟩]
  setDesiredCapacity := fun _ _ => Except.ok ()
  describeAsgStatus := fun _ _ => Except.ok none
  describeTargetHealth := fun _ _ => Except.ok []
  startFlow := fun _ => Except.ok ()
  stopFlow := fun _ => Except.ok ()
  startChannel := fun _ => Except.ok ()
  stopChannel := fun _ => Except.ok ()
  describeFlow := fun _ _ => Except.ok none
  describeChannel := fun _ _ => Except.ok none

/-- Discovery with the stack describe succeeding but the auto-scaling-group
describe call failing: the source catches the error, logs a warning, and
proceeds with no ASG. -/
def envAsgFail : Env where
  describeStacks := Except.ok [⟨[⟨"SomeOtherOutput", "value-1"⟩]⟩]
  listChannels := Except.ok []
  describeASGs := Except.error "Command failed: asg boom"
  setDesiredCapacity := fun _ _ => Except.ok ()
  describeAsgStatus := fun _ _ => Except.ok none
  describeTargetHealth := fun _ _ => Except.ok []
  startFlow := fun _ => Except.ok ()
  stopFlow := fun _ => Except.ok ()
  startChannel := fun _ => Except.ok ()
  stopChannel := fun _ => Except.ok ()
  describeFlow := fun _ _ => Except.ok none
  describeChannel := fun _ _ => Except.ok none

/-- Discovery as in the scenario, but the `set-desired-capacity` call itself
errors. -/
def envCapFail : Env where
  describeStacks := Except.ok [⟨[⟨"Flow1FlowArn", "arn-flow1"⟩, ⟨"Flow2FlowArn", "arn-flow2"⟩]⟩]
  listChannels := Except.ok [⟨"StreamChannel", "ch-1"⟩]
  describeASGs := Except.ok [⟨"Stack-SecurityApplianceASG-XYZ", [], ["tg-arn-1"]⟩]
  setDesiredCapacity := fun _ _ =>
    Except.error "An error occurred (ValidationError) when calling the SetDesiredCapacity operation"
  describeAsgStatus := fun _ _ => Except.ok none
  describeTargetHealth := fun _ _ => Except.ok []
  startFlow := fun _ => Except.ok ()
  stopFlow := fun _ => Except.ok ()
  startChannel := fun _ => Except.ok ()
  stopChannel := fun _ => Except.ok ()
  describeFlow := fun _ _ => Except.ok (some "ACTIVE")
  describeChannel := fun _ _ => Except.ok (some "RUNNING")

/-- Every resource is already running: the start calls fail with the
`not in STANDBY` / `not in IDLE` messages the service returns in that case,
and every observation reports the running state. -/
def envAlready : Env where
  describeStacks := Except.ok [⟨[⟨"Flow1FlowArn", "arn-flow1"⟩, ⟨"Flow2FlowArn", "arn-flow2"⟩]⟩]
  listChannels := Except.ok [⟨"StreamChannel", "ch-1"⟩]
  describeASGs := Except.ok []
  setDesiredCapacity := fun _ _ => Except.ok ()
  describeAsgStatus := fun _ _ => Except.ok none
  describeTargetHealth := fun _ _ => Except.ok []
  startFlow := fun _ =>
    Except.error "Command failed: ValidationException: flow is not in STANDBY state"
  stopFlow := fun _ => Except.ok ()
  startChannel := fun _ =>
    Except.error "Command failed: ValidationException: channel is not in IDLE state"
  stopChannel := fun _ => Except.ok ()
  describeFlow := fun _ _ => Except.ok (some "ACTIVE")
  describeChannel := fun _ _ => Except.ok (some "RUNNING")

/-- The full trace of `start()` on `envScenario` from clock 0. -/
def scenarioTrace : List Event :=
  [Event.log "🚀 Starting streaming infrastructure" "green",
   Event.log "🔍 Discovering resources..." "blue",
   Event.awsDescribeStacks (Except.ok [⟨[⟨"Flow1FlowArn", "arn-flow1"⟩, ⟨"Flow2FlowArn", "arn-flow2"⟩]⟩]),
   Event.awsListChannels (Except.ok [⟨"StreamChannel", "ch-1"⟩]),
   Event.awsDescribeASGs (Except.ok [⟨"Stack-SecurityApplianceASG-XYZ", [], ["tg-arn-1"]⟩]),
   Event.log "🔍 Found 1 Auto Scaling Groups" "cyan",
   Event.log "🔍 Checking ASG: Stack-SecurityApplianceASG-XYZ (SecurityAppliance: true, StackTag: false)" "cyan",
   Event.log "✅ Found ASG: Stack-SecurityApplianceASG-XYZ" "green",
   Event.log "✅ Found 2 flows, 1 channels, 1 ASG" "green",
   Event.log "🔧 Setting ASG desired capacity to 2..." "blue",
   Event.awsSetDesiredCapacity "Stack-SecurityApplianceASG-XYZ" 2 (Except.ok ()),
   Event.log "✅ Set ASG desired capacity to 2" "green",
   Event.log "⏳ Waiting for ASG to reach desired capacity of 2..." "yellow",
   Event.awsDescribeAsgStatus "Stack-SecurityApplianceASG-XYZ" (Except.ok (some ⟨[], 2⟩)),
   Event.log "📊 ASG instances: 0/0 in service, target: 2" "cyan",
   Event.sleep 10000,
   Event.awsDescribeAsgStatus "Stack-SecurityApplianceASG-XYZ"
     (Except.ok (some ⟨[⟨"InService"⟩, ⟨"InService"⟩], 2⟩)),
   Event.log "📊 ASG instances: 2/2 in service, target: 2" "cyan",
   Event.log "✅ ASG scaled up to 2" "green",
   Event.log "⏳ Waiting for GWLB targets to be healthy..." "yellow",
   Event.awsDescribeTargetHealth "tg-arn-1" (Except.ok [⟨"healthy"⟩, ⟨"healthy"⟩]),
   Event.log "📊 Healthy targets: 2/2" "cyan",
   Event.log "✅ GWLB targets are healthy" "green",
   Event.log "🚀 Starting MediaConnect flows..." "blue",
   Event.awsStartFlow "arn-flow1" (Except.ok ()),
   Event.log "✅ Started Flow1FlowArn" "green",
   Event.awsStartFlow "arn-flow2" (Except.ok ()),
   Event.log "✅ Started Flow2FlowArn" "green",
   Event.log "⏳ Waiting for flows to reach ACTIVE..." "yellow",
   Event.awsDescribeFlow "arn-flow1" (Except.ok (some "ACTIVE")),
   Event.awsDescribeFlow "arn-flow2" (Except.ok (some "ACTIVE")),
   Event.log "✅ Flows ready" "green",
   Event.log "🚀 Starting MediaLive channels..." "blue",
   Event.awsStartChannel "ch-1" (Except.ok ()),
   Event.log "✅ Started StreamChannel" "green",
   Event.log "⏳ Waiting for channels to reach RUNNING..." "yellow",
   Event.awsDescribeChannel "ch-1" (Except.ok (some "RUNNING")),
   Event.log "✅ Channels ready" "green",
   Event.log "✅ Start complete" "green",
   Event.log "📊 Status" "blue",
   Event.awsDescribeAsgStatus "Stack-SecurityApplianceASG-XYZ"
     (Except.ok (some ⟨[⟨"InService"⟩, ⟨"InService"⟩], 2⟩)),
   Event.log "  ASG Stack-SecurityApplianceASG-XYZ: 2/2 in service (desired: 2)" "green",
   Event.awsDescribeTargetHealth "tg-arn-1" (Except.ok [⟨"healthy"⟩, ⟨"healthy"⟩]),
   Event.log "  GWLB Targets: 2/2 healthy" "green",
   Event.awsDescribeFlow "arn-flow1" (Except.ok (some "ACTIVE")),
   Event.log "  Flow Flow1FlowArn: ACTIVE" "green",
   Event.awsDescribeFlow "arn-flow2" (Except.ok (some "ACTIVE")),
   Event.log "  Flow Flow2FlowArn: ACTIVE" "green",
   Event.awsDescribeChannel "ch-1" (Except.ok (some "RUNNING")),
   Event.log "  Channel StreamChannel: RUNNING" "green"]

/-!
## Semantic predicates on computations
-/

/-- `x` never throws: from every clock it returns `Except.ok`. -/
def NF {α : Type} (x : M α) : Prop :=
  ∀ c, ∃ es c' a, x c = ⟨es, c', Except.ok a⟩

/-- Every event `x` can emit has its constructor tag in `ks`. -/
def KindsIn (ks : List Nat) {α : Type} (x : M α) : Prop :=
  ∀ c, ∀ e ∈ (x c).events, e.kind ∈ ks

/-- The nonzero stop-phases of any trace of `x` are sorted and lie within
`[lo, hi]`. -/
def PB (lo hi : Nat) {α : Type} (x : M α) : Prop :=
  ∀ c, List.Pairwise (fun a b => a ≤ b) (phasesOf (x c).events) ∧
    ∀ r ∈ phasesOf (x c).events, lo ≤ r ∧ r ≤ hi

end StreamManager

namespace StreamManager

/-!
## Generic lemmas about the execution monad
-/

theorem bind_eq {α β : Type} (x : M α) (f : α → M β) : x >>= f = M.bind x f := rfl

theorem pure_eq {α : Type} (a : α) : (pure a : M α) = M.pure a := rfl

theorem bind_apply_ok {α β : Type} {x : M α} {c c' : Nat} {es : List Event} {a : α}
    (f : α → M β) (h : x c = ⟨es, c', Except.ok a⟩) :
    (x >>= f) c = ⟨es ++ (f a c').events, (f a c').clock, (f a c').result⟩ := by
  show M.bind x f c = _
  simp only [M.bind, h]

theorem bind_apply_err {α β : Type} {x : M α} {c c' : Nat} {es : List Event} {m : String}
    (f : α → M β) (h : x c = ⟨es, c', Except.error m⟩) :
    (x >>= f) c = ⟨es, c', Except.error m⟩ := by
  show M.bind x f c = _
  simp only [M.bind, h]

theorem logM_apply (msg color : String) (c : Nat) :
    logM msg color c = ⟨[Event.log msg color], c, Except.ok ()⟩ := rfl

theorem sleepM_apply (ms : Nat) (c : Nat) :
    sleepM ms c = ⟨[Event.sleep ms], c + 1, Except.ok ()⟩ := rfl

theorem emitM_apply (e : Event) (c : Nat) : emitM e c = ⟨[e], c, Except.ok ()⟩ := rfl

theorem callAwsT_apply {α : Type} (ev : Nat → Event) (f : Nat → Except String α) (c : Nat) :
    callAwsT ev f c = ⟨[ev c], c, Except.ok (f c)⟩ := rfl

theorem mpure_apply {α : Type} (a : α) (c : Nat) : M.pure a c = ⟨[], c, Except.ok a⟩ := rfl

theorem throwM_apply {α : Type} (msg : String) (c : Nat) :
    @throwM α msg c = ⟨[], c, Except.error msg⟩ := rfl

/-!
### Never-fails reasoning
-/

theorem nf_bind {α β : Type} {x : M α} {f : α → M β} (hx : NF x) (hf : ∀ a, NF (f a)) :
    NF (x >>= f) := by
  intro c
  obtain ⟨es, c', a, hx'⟩ := hx c
  obtain ⟨es2, c'', b, hf'⟩ := hf a c'
  exact ⟨es ++ es2, c'', b, by rw [bind_apply_ok f hx', hf']⟩

theorem nf_mpure {α : Type} (a : α) : NF (M.pure a) := fun c => ⟨[], c, a, rfl⟩

theorem nf_logM (msg color : String) : NF (logM msg color) :=
  fun c => ⟨[Event.log msg color], c, (), rfl⟩

theorem nf_sleepM (ms : Nat) : NF (sleepM ms) := fun c => ⟨[Event.sleep ms], c + 1, (), rfl⟩

theorem nf_emitM (e : Event) : NF (emitM e) := fun c => ⟨[e], c, (), rfl⟩

theorem nf_callAwsT {α : Type} (ev : Nat → Event) (f : Nat → Except String α) :
    NF (callAwsT ev f) := fun c => ⟨[ev c], c, f c, rfl⟩

theorem nf_ite {α : Type} {p : Prop} [Decidable p] {x y : M α} (hx : NF x) (hy : NF y) :
    NF (if p then x else y) := by
  by_cases h : p <;> simp [h, hx, hy]

theorem nf_findSecurityASG (cfg : Config) : ∀ asgs, NF (findSecurityASG cfg asgs)
  | [] => nf_mpure none
  | asg :: rest => by
      unfold findSecurityASG
      exact nf_ite (nf_bind (nf_logM _ _) fun _ => nf_mpure _) (nf_findSecurityASG cfg rest)

theorem nf_discoverResources {env : Env} (cfg : Config) {sl : List Stack}
    (h : env.describeStacks = Except.ok sl) : NF (discoverResources env cfg) := by
  unfold discoverResources
  rw [h]
  refine nf_bind (nf_logM _ _) fun _ => nf_bind (nf_emitM _) fun _ => ?_
  refine nf_bind (nf_emitM _) fun _ => ?_
  refine nf_bind ?_ fun channels => ?_
  · cases h2 : env.listChannels with
    | ok chans => exact nf_mpure _
    | error m => exact nf_bind (nf_logM _ _) fun _ => nf_mpure _
  · refine nf_bind (nf_emitM _) fun _ => ?_
    refine nf_bind ?_ fun asg => ?_
    · cases h3 : env.describeASGs with
      | ok asgs =>
          refine nf_bind (nf_logM _ _) fun _ => ?_
          refine nf_bind (nf_findSecurityASG cfg asgs) fun secOpt => ?_
          cases secOpt with
          | some a => exact nf_bind (nf_logM _ _) fun _ => nf_mpure _
          | none => exact nf_bind (nf_logM _ _) fun _ => nf_mpure _
      | error m => exact nf_bind (nf_logM _ _) fun _ => nf_mpure _
    · exact nf_bind (nf_logM _ _) fun _ => nf_mpure _

theorem nf_setAutoScalingGroupCapacityGo {env : Env} (d : Nat)
    (hcap : ∀ n k, env.setDesiredCapacity n k = Except.ok ()) :
    ∀ o, NF (setAutoScalingGroupCapacityGo env d o)
  | none => nf_logM _ _
  | some g => by
      simp only [setAutoScalingGroupCapacityGo]
      rw [hcap g.name d]
      exact nf_bind (nf_logM _ _) fun _ => nf_bind (nf_emitM _) fun _ => nf_logM _ _

theorem nf_setAutoScalingGroupCapacity {env : Env} (st : ManagerState) (d : Nat)
    (hcap : ∀ n k, env.setDesiredCapacity n k = Except.ok ()) :
    NF (setAutoScalingGroupCapacity env st d) :=
  nf_setAutoScalingGroupCapacityGo d hcap st.autoScalingGroup

theorem nf_waitForTargetsHealthyLoop (env : Env) (tgArn : String) :
    ∀ fuel, NF (waitForTargetsHealthyLoop env tgArn fuel)
  | 0 => nf_logM _ _
  | fuel + 1 => by
      unfold waitForTargetsHealthyLoop
      refine nf_bind (nf_callAwsT _ _) fun r => ?_
      split
      · refine nf_ite ?_ ?_
        · exact nf_bind (nf_logM _ _) fun _ => nf_bind (nf_sleepM _) fun _ =>
            nf_waitForTargetsHealthyLoop env tgArn fuel
        · refine nf_bind (nf_logM _ _) fun _ => nf_ite (nf_logM _ _) ?_
          exact nf_bind (nf_sleepM _) fun _ => nf_waitForTargetsHealthyLoop env tgArn fuel
      · exact nf_bind (nf_logM _ _) fun _ => nf_bind (nf_sleepM _) fun _ =>
          nf_waitForTargetsHealthyLoop env tgArn fuel

theorem nf_waitForTargetsHealthy (env : Env) (st : ManagerState) :
    NF (waitForTargetsHealthy env st) := by
  unfold waitForTargetsHealthy
  split
  · exact nf_logM _ _
  · split
    · exact nf_logM _ _
    · rename_i tgArn heq
      exact nf_bind (nf_logM _ _) fun _ => nf_waitForTargetsHealthyLoop env tgArn maxPolls

theorem nf_waitForAutoScalingGroupLoop (env : Env) (name : String) (tc : Nat) :
    ∀ fuel, NF (waitForAutoScalingGroupLoop env name tc fuel)
  | 0 => nf_logM _ _
  | fuel + 1 => by
      unfold waitForAutoScalingGroupLoop
      refine nf_bind (nf_callAwsT _ _) fun r => ?_
      split
      · refine nf_bind (nf_logM _ _) fun _ => ?_
        refine nf_ite (nf_ite (nf_logM _ _) ?_) (nf_ite (nf_logM _ _) ?_)
        · exact nf_bind (nf_sleepM _) fun _ =>
            nf_waitForAutoScalingGroupLoop env name tc fuel
        · exact nf_bind (nf_sleepM _) fun _ =>
            nf_waitForAutoScalingGroupLoop env name tc fuel
      · exact nf_bind (nf_sleepM _) fun _ =>
          nf_waitForAutoScalingGroupLoop env name tc fuel
      · exact nf_bind (nf_logM _ _) fun _ => nf_bind (nf_sleepM _) fun _ =>
          nf_waitForAutoScalingGroupLoop env name tc fuel

theorem nf_waitForAutoScalingGroup (env : Env) (st : ManagerState) (tc : Nat) :
    NF (waitForAutoScalingGroup env st tc) := by
  unfold waitForAutoScalingGroup
  split
  · exact nf_mpure _
  · rename_i g heq
    exact nf_bind (nf_logM _ _) fun _ => nf_waitForAutoScalingGroupLoop env g.name tc maxPolls

theorem nf_startFlowsEach (env : Env) : ∀ flows, NF (startFlowsEach env flows)
  | [] => nf_mpure ()
  | flow :: rest => by
      unfold startFlowsEach
      refine nf_bind (nf_emitM _) fun _ => nf_bind ?_ fun _ => nf_startFlowsEach env rest
      split
      · exact nf_logM _ _
      · exact nf_ite (nf_logM _ _) (nf_logM _ _)

theorem nf_startFlows (env : Env) (flows : List Flow) : NF (startFlows env flows) := by
  unfold startFlows
  exact nf_ite (nf_mpure ()) (nf_bind (nf_logM _ _) fun _ => nf_startFlowsEach env flows)

theorem nf_stopFlowsEach (env : Env) : ∀ flows, NF (stopFlowsEach env flows)
  | [] => nf_mpure ()
  | flow :: rest => by
      unfold stopFlowsEach
      refine nf_bind (nf_emitM _) fun _ => nf_bind ?_ fun _ => nf_stopFlowsEach env rest
      split
      · exact nf_logM _ _
      · exact nf_ite (nf_logM _ _) (nf_logM _ _)

theorem nf_stopFlows (env : Env) (flows : List Flow) : NF (stopFlows env flows) := by
  unfold stopFlows
  exact nf_ite (nf_mpure ()) (nf_bind (nf_logM _ _) fun _ => nf_stopFlowsEach env flows)

theorem nf_startChannelsEach (env : Env) : ∀ channels, NF (startChannelsEach env channels)
  | [] => nf_mpure ()
  | channel :: rest => by
      unfold startChannelsEach
      refine nf_bind (nf_emitM _) fun _ => nf_bind ?_ fun _ => nf_startChannelsEach env rest
      split
      · exact nf_logM _ _
      · exact nf_ite (nf_logM _ _) (nf_logM _ _)

theorem nf_startChannels (env : Env) (channels : List Channel) :
    NF (startChannels env channels) := by
  unfold startChannels
  exact nf_ite (nf_mpure ()) (nf_bind (nf_logM _ _) fun _ => nf_startChannelsEach env channels)

theorem nf_stopChannelsEach (env : Env) : ∀ channels, NF (stopChannelsEach env channels)
  | [] => nf_mpure ()
  | channel :: rest => by
      unfold stopChannelsEach
      refine nf_bind (nf_emitM _) fun _ => nf_bind ?_ fun _ => nf_stopChannelsEach env rest
      split
      · exact nf_logM _ _
      · exact nf_ite (nf_logM _ _) (nf_logM _ _)

theorem nf_stopChannels (env : Env) (channels : List Channel) :
    NF (stopChannels env channels) := by
  unfold stopChannels
  exact nf_ite (nf_mpure ()) (nf_bind (nf_logM _ _) fun _ => nf_stopChannelsEach env channels)

theorem nf_checkFlowsReady (env : Env) (ts : String) : ∀ flows, NF (checkFlowsReady env ts flows)
  | [] => nf_mpure true
  | flow :: rest => by
      unfold checkFlowsReady
      refine nf_bind (nf_callAwsT _ _) fun r => ?_
      split
      · exact nf_ite (nf_mpure false) (nf_checkFlowsReady env ts rest)
      · exact nf_mpure false

theorem nf_waitForFlowsLoop (env : Env) (flows : List Flow) (ts : String) :
    ∀ fuel, NF (waitForFlowsLoop env flows ts fuel)
  | 0 => nf_logM _ _
  | fuel + 1 => by
      unfold waitForFlowsLoop
      refine nf_bind (nf_checkFlowsReady env ts flows) fun allReady => ?_
      exact nf_ite (nf_logM _ _)
        (nf_bind (nf_sleepM _) fun _ => nf_waitForFlowsLoop env flows ts fuel)

theorem nf_waitForFlows (env : Env) (flows : List Flow) (ts : String) :
    NF (waitForFlows env flows ts) := by
  unfold waitForFlows
  exact nf_ite (nf_mpure ())
    (nf_bind (nf_logM _ _) fun _ => nf_waitForFlowsLoop env flows ts maxPolls)

theorem nf_checkChannelsReady (env : Env) (ts : String) :
    ∀ channels, NF (checkChannelsReady env ts channels)
  | [] => nf_mpure true
  | channel :: rest => by
      unfold checkChannelsReady
      refine nf_bind (nf_callAwsT _ _) fun r => ?_
      split
      · exact nf_ite (nf_mpure false) (nf_checkChannelsReady env ts rest)
      · exact nf_mpure false

theorem nf_waitForChannelsLoop (env : Env) (channels : List Channel) (ts : String) :
    ∀ fuel, NF (waitForChannelsLoop env channels ts fuel)
  | 0 => nf_logM _ _
  | fuel + 1 => by
      unfold waitForChannelsLoop
      refine nf_bind (nf_checkChannelsReady env ts channels) fun allReady => ?_
      exact nf_ite (nf_logM _ _)
        (nf_bind (nf_sleepM _) fun _ => nf_waitForChannelsLoop env channels ts fuel)

theorem nf_waitForChannels (env : Env) (channels : List Channel) (ts : String) :
    NF (waitForChannels env channels ts) := by
  unfold waitForChannels
  exact nf_ite (nf_mpure ())
    (nf_bind (nf_logM _ _) fun _ => nf_waitForChannelsLoop env channels ts maxPolls)

theorem nf_flowStatusEach (env : Env) : ∀ flows, NF (flowStatusEach env flows)
  | [] => nf_mpure ()
  | flow :: rest => by
      unfold flowStatusEach
      refine nf_bind (nf_callAwsT _ _) fun r => nf_bind ?_ fun _ => nf_flowStatusEach env rest
      split
      · exact nf_logM _ _
      · exact nf_logM _ _

theorem nf_channelStatusEach (env : Env) : ∀ channels, NF (channelStatusEach env channels)
  | [] => nf_mpure ()
  | channel :: rest => by
      unfold channelStatusEach
      refine nf_bind (nf_callAwsT _ _) fun r => nf_bind ?_ fun _ => nf_channelStatusEach env rest
      split
      · exact nf_logM _ _
      · exact nf_logM _ _

theorem nf_asgStatusSection (env : Env) (st : ManagerState) : NF (asgStatusSection env st) := by
  unfold asgStatusSection
  split
  · exact nf_mpure ()
  · refine nf_bind (nf_callAwsT _ _) fun r => ?_
    split
    · refine nf_bind (nf_logM _ _) fun _ => ?_
      split
      · exact nf_mpure ()
      · refine nf_bind (nf_callAwsT _ _) fun tr => ?_
        split
        · exact nf_logM _ _
        · exact nf_logM _ _
    · exact nf_mpure ()
    · exact nf_logM _ _

theorem nf_showStatus (env : Env) (st : ManagerState) : NF (showStatus env st) := by
  unfold showStatus
  exact nf_bind (nf_logM _ _) fun _ => nf_bind (nf_asgStatusSection env st) fun _ =>
    nf_bind (nf_flowStatusEach env st.flows) fun _ => nf_channelStatusEach env st.channels

/-!
### Which event kinds each operation can emit
-/

theorem kinds_bind {α β : Type} {ks : List Nat} {x : M α} {f : α → M β}
    (hx : KindsIn ks x) (hf : ∀ a, KindsIn ks (f a)) : KindsIn ks (x >>= f) := by
  intro c e he
  rcases hxc : x c with ⟨es, c', r⟩
  cases r with
  | ok a =>
      rw [bind_apply_ok f hxc] at he
      rcases List.mem_append.mp he with h | h
      · have hh := hx c e
        rw [hxc] at hh
        exact hh h
      · exact hf a c' e h
  | error m =>
      rw [bind_apply_err f hxc] at he
      have hh := hx c e
      rw [hxc] at hh
      exact hh he

theorem kinds_mpure {α : Type} (ks : List Nat) (a : α) : KindsIn ks (M.pure a) := by
  intro c e he
  simp [M.pure] at he

theorem kinds_throwM {α : Type} (ks : List Nat) (msg : String) :
    KindsIn ks (@throwM α msg) := by
  intro c e he
  simp [throwM] at he

theorem kinds_logM {ks : List Nat} (msg color : String) (h : 0 ∈ ks) :
    KindsIn ks (logM msg color) := by
  intro c e he
  simp [logM] at he
  subst he
  exact h

theorem kinds_sleepM {ks : List Nat} (ms : Nat) (h : 1 ∈ ks) : KindsIn ks (sleepM ms) := by
  intro c e he
  simp [sleepM] at he
  subst he
  exact h

theorem kinds_emitM {ks : List Nat} (e : Event) (h : e.kind ∈ ks) : KindsIn ks (emitM e) := by
  intro c e' he
  simp [emitM] at he
  subst he
  exact h

theorem kinds_callAwsT {α : Type} {ks : List Nat} (ev : Nat → Event)
    (f : Nat → Except String α) (h : ∀ c, (ev c).kind ∈ ks) : KindsIn ks (callAwsT ev f) := by
  intro c e' he
  simp [callAwsT] at he
  subst he
  exact h c

theorem kinds_ite {α : Type} {ks : List Nat} {p : Prop} [Decidable p] {x y : M α}
    (hx : KindsIn ks x) (hy : KindsIn ks y) : KindsIn ks (if p then x else y) := by
  by_cases h : p <;> simp [h, hx, hy]

theorem kinds_mono {α : Type} {ks ks' : List Nat} {x : M α} (h : KindsIn ks x)
    (hsub : ∀ k ∈ ks, k ∈ ks') : KindsIn ks' x := fun c e he => hsub _ (h c e he)

theorem kinds_findSecurityASG (cfg : Config) : ∀ asgs, KindsIn [0] (findSecurityASG cfg asgs)
  | [] => kinds_mpure [0] none
  | asg :: rest => by
      unfold findSecurityASG
      exact kinds_ite (kinds_bind (kinds_logM _ _ (by decide)) fun _ => kinds_mpure _ _)
        (kinds_findSecurityASG cfg rest)

theorem kinds_discoverResources (env : Env) (cfg : Config) :
    KindsIn [0, 2, 3, 4] (discoverResources env cfg) := by
  unfold discoverResources
  refine kinds_bind (kinds_logM _ _ (by decide)) fun _ => ?_
  refine kinds_bind (kinds_emitM _ (by simp [Event.kind])) fun _ => ?_
  split
  · exact kinds_throwM _ _
  · refine kinds_bind (kinds_emitM _ (by simp [Event.kind])) fun _ => ?_
    refine kinds_bind ?_ fun channels => ?_
    · split
      · exact kinds_mpure _ _
      · exact kinds_bind (kinds_logM _ _ (by decide)) fun _ => kinds_mpure _ _
    · refine kinds_bind (kinds_emitM _ (by simp [Event.kind])) fun _ => ?_
      refine kinds_bind ?_ fun asg => ?_
      · split
        · rename_i asgs heq
          refine kinds_bind (kinds_logM _ _ (by decide)) fun _ => ?_
          refine kinds_bind
            (kinds_mono (kinds_findSecurityASG cfg asgs) (by decide)) fun secOpt => ?_
          split
          · exact kinds_bind (kinds_logM _ _ (by decide)) fun _ => kinds_mpure _ _
          · exact kinds_bind (kinds_logM _ _ (by decide)) fun _ => kinds_mpure _ _
        · exact kinds_bind (kinds_logM _ _ (by decide)) fun _ => kinds_mpure _ _
      · exact kinds_bind (kinds_logM _ _ (by decide)) fun _ => kinds_mpure _ _

theorem kinds_setAutoScalingGroupCapacityGo (env : Env) (d : Nat) :
    ∀ o, KindsIn [0, 5] (setAutoScalingGroupCapacityGo env d o)
  | none => kinds_logM _ _ (by decide)
  | some g => by
      simp only [setAutoScalingGroupCapacityGo]
      refine kinds_bind (kinds_logM _ _ (by decide)) fun _ => ?_
      refine kinds_bind (kinds_emitM _ (by simp [Event.kind])) fun _ => ?_
      split
      · exact kinds_logM _ _ (by decide)
      · exact kinds_throwM _ _

theorem kinds_setAutoScalingGroupCapacity (env : Env) (st : ManagerState) (d : Nat) :
    KindsIn [0, 5] (setAutoScalingGroupCapacity env st d) :=
  kinds_setAutoScalingGroupCapacityGo env d st.autoScalingGroup

theorem kinds_waitForTargetsHealthyLoop (env : Env) (tgArn : String) :
    ∀ fuel, KindsIn [0, 1, 7] (waitForTargetsHealthyLoop env tgArn fuel)
  | 0 => kinds_logM _ _ (by decide)
  | fuel + 1 => by
      unfold waitForTargetsHealthyLoop
      refine kinds_bind (kinds_callAwsT _ _ (fun c => by simp [Event.kind])) fun r => ?_
      split
      · refine kinds_ite ?_ ?_
        · exact kinds_bind (kinds_logM _ _ (by decide)) fun _ =>
            kinds_bind (kinds_sleepM _ (by decide)) fun _ =>
              kinds_waitForTargetsHealthyLoop env tgArn fuel
        · refine kinds_bind (kinds_logM _ _ (by decide)) fun _ =>
            kinds_ite (kinds_logM _ _ (by decide)) ?_
          exact kinds_bind (kinds_sleepM _ (by decide)) fun _ =>
            kinds_waitForTargetsHealthyLoop env tgArn fuel
      · exact kinds_bind (kinds_logM _ _ (by decide)) fun _ =>
          kinds_bind (kinds_sleepM _ (by decide)) fun _ =>
            kinds_waitForTargetsHealthyLoop env tgArn fuel

theorem kinds_waitForTargetsHealthy (env : Env) (st : ManagerState) :
    KindsIn [0, 1, 7] (waitForTargetsHealthy env st) := by
  unfold waitForTargetsHealthy
  split
  · exact kinds_logM _ _ (by decide)
  · split
    · exact kinds_logM _ _ (by decide)
    · rename_i tgArn heq
      exact kinds_bind (kinds_logM _ _ (by decide)) fun _ =>
        kinds_waitForTargetsHealthyLoop env tgArn maxPolls

theorem kinds_waitForAutoScalingGroupLoop (env : Env) (name : String) (tc : Nat) :
    ∀ fuel, KindsIn [0, 1, 6] (waitForAutoScalingGroupLoop env name tc fuel)
  | 0 => kinds_logM _ _ (by decide)
  | fuel + 1 => by
      unfold waitForAutoScalingGroupLoop
      refine kinds_bind (kinds_callAwsT _ _ (fun c => by simp [Event.kind])) fun r => ?_
      split
      · refine kinds_bind (kinds_logM _ _ (by decide)) fun _ => ?_
        refine kinds_ite (kinds_ite (kinds_logM _ _ (by decide)) ?_)
          (kinds_ite (kinds_logM _ _ (by decide)) ?_)
        · exact kinds_bind (kinds_sleepM _ (by decide)) fun _ =>
            kinds_waitForAutoScalingGroupLoop env name tc fuel
        · exact kinds_bind (kinds_sleepM _ (by decide)) fun _ =>
            kinds_waitForAutoScalingGroupLoop env name tc fuel
      · exact kinds_bind (kinds_sleepM _ (by decide)) fun _ =>
          kinds_waitForAutoScalingGroupLoop env name tc fuel
      · exact kinds_bind (kinds_logM _ _ (by decide)) fun _ =>
          kinds_bind (kinds_sleepM _ (by decide)) fun _ =>
            kinds_waitForAutoScalingGroupLoop env name tc fuel

theorem kinds_waitForAutoScalingGroup (env : Env) (st : ManagerState) (tc : Nat) :
    KindsIn [0, 1, 6] (waitForAutoScalingGroup env st tc) := by
  unfold waitForAutoScalingGroup
  split
  · exact kinds_mpure _ _
  · rename_i g heq
    exact kinds_bind (kinds_logM _ _ (by decide)) fun _ =>
      kinds_waitForAutoScalingGroupLoop env g.name tc maxPolls

theorem kinds_startFlowsEach (env : Env) : ∀ flows, KindsIn [0, 8] (startFlowsEach env flows)
  | [] => kinds_mpure _ ()
  | flow :: rest => by
      unfold startFlowsEach
      refine kinds_bind (kinds_emitM _ (by simp [Event.kind])) fun _ =>
        kinds_bind ?_ fun _ => kinds_startFlowsEach env rest
      split
      · exact kinds_logM _ _ (by decide)
      · exact kinds_ite (kinds_logM _ _ (by decide)) (kinds_logM _ _ (by decide))

theorem kinds_startFlows (env : Env) (flows : List Flow) : KindsIn [0, 8] (startFlows env flows) := by
  unfold startFlows
  exact kinds_ite (kinds_mpure _ ())
    (kinds_bind (kinds_logM _ _ (by decide)) fun _ => kinds_startFlowsEach env flows)

theorem kinds_stopFlowsEach (env : Env) : ∀ flows, KindsIn [0, 9] (stopFlowsEach env flows)
  | [] => kinds_mpure _ ()
  | flow :: rest => by
      unfold stopFlowsEach
      refine kinds_bind (kinds_emitM _ (by simp [Event.kind])) fun _ =>
        kinds_bind ?_ fun _ => kinds_stopFlowsEach env rest
      split
      · exact kinds_logM _ _ (by decide)
      · exact kinds_ite (kinds_logM _ _ (by decide)) (kinds_logM _ _ (by decide))

theorem kinds_stopFlows (env : Env) (flows : List Flow) : KindsIn [0, 9] (stopFlows env flows) := by
  unfold stopFlows
  exact kinds_ite (kinds_mpure _ ())
    (kinds_bind (kinds_logM _ _ (by decide)) fun _ => kinds_stopFlowsEach env flows)

theorem kinds_startChannelsEach (env : Env) :
    ∀ channels, KindsIn [0, 10] (startChannelsEach env channels)
  | [] => kinds_mpure _ ()
  | channel :: rest => by
      unfold startChannelsEach
      refine kinds_bind (kinds_emitM _ (by simp [Event.kind])) fun _ =>
        kinds_bind ?_ fun _ => kinds_startChannelsEach env rest
      split
      · exact kinds_logM _ _ (by decide)
      · exact kinds_ite (kinds_logM _ _ (by decide)) (kinds_logM _ _ (by decide))

theorem kinds_startChannels (env : Env) (channels : List Channel) :
    KindsIn [0, 10] (startChannels env channels) := by
  unfold startChannels
  exact kinds_ite (kinds_mpure _ ())
    (kinds_bind (kinds_logM _ _ (by decide)) fun _ => kinds_startChannelsEach env channels)

theorem kinds_stopChannelsEach (env : Env) :
    ∀ channels, KindsIn [0, 11] (stopChannelsEach env channels)
  | [] => kinds_mpure _ ()
  | channel :: rest => by
      unfold stopChannelsEach
      refine kinds_bind (kinds_emitM _ (by simp [Event.kind])) fun _ =>
        kinds_bind ?_ fun _ => kinds_stopChannelsEach env rest
      split
      · exact kinds_logM _ _ (by decide)
      · exact kinds_ite (kinds_logM _ _ (by decide)) (kinds_logM _ _ (by decide))

theorem kinds_stopChannels (env : Env) (channels : List Channel) :
    KindsIn [0, 11] (stopChannels env channels) := by
  unfold stopChannels
  exact kinds_ite (kinds_mpure _ ())
    (kinds_bind (kinds_logM _ _ (by decide)) fun _ => kinds_stopChannelsEach env channels)

theorem kinds_checkFlowsReady (env : Env) (ts : String) :
    ∀ flows, KindsIn [0, 1, 12] (checkFlowsReady env ts flows)
  | [] => kinds_mpure _ true
  | flow :: rest => by
      unfold checkFlowsReady
      refine kinds_bind (kinds_callAwsT _ _ (fun c => by simp [Event.kind])) fun r => ?_
      split
      · exact kinds_ite (kinds_mpure _ false) (kinds_checkFlowsReady env ts rest)
      · exact kinds_mpure _ false

theorem kinds_waitForFlowsLoop (env : Env) (flows : List Flow) (ts : String) :
    ∀ fuel, KindsIn [0, 1, 12] (waitForFlowsLoop env flows ts fuel)
  | 0 => kinds_logM _ _ (by decide)
  | fuel + 1 => by
      unfold waitForFlowsLoop
      refine kinds_bind (kinds_checkFlowsReady env ts flows) fun allReady => ?_
      exact kinds_ite (kinds_logM _ _ (by decide))
        (kinds_bind (kinds_sleepM _ (by decide)) fun _ => kinds_waitForFlowsLoop env flows ts fuel)

theorem kinds_waitForFlows (env : Env) (flows : List Flow) (ts : String) :
    KindsIn [0, 1, 12] (waitForFlows env flows ts) := by
  unfold waitForFlows
  exact kinds_ite (kinds_mpure _ ())
    (kinds_bind (kinds_logM _ _ (by decide)) fun _ => kinds_waitForFlowsLoop env flows ts maxPolls)

theorem kinds_checkChannelsReady (env : Env) (ts : String) :
    ∀ channels, KindsIn [0, 1, 13] (checkChannelsReady env ts channels)
  | [] => kinds_mpure _ true
  | channel :: rest => by
      unfold checkChannelsReady
      refine kinds_bind (kinds_callAwsT _ _ (fun c => by simp [Event.kind])) fun r => ?_
      split
      · exact kinds_ite (kinds_mpure _ false) (kinds_checkChannelsReady env ts rest)
      · exact kinds_mpure _ false

theorem kinds_waitForChannelsLoop (env : Env) (channels : List Channel) (ts : String) :
    ∀ fuel, KindsIn [0, 1, 13] (waitForChannelsLoop env channels ts fuel)
  | 0 => kinds_logM _ _ (by decide)
  | fuel + 1 => by
      unfold waitForChannelsLoop
      refine kinds_bind (kinds_checkChannelsReady env ts channels) fun allReady => ?_
      exact kinds_ite (kinds_logM _ _ (by decide))
        (kinds_bind (kinds_sleepM _ (by decide)) fun _ =>
          kinds_waitForChannelsLoop env channels ts fuel)

theorem kinds_waitForChannels (env : Env) (channels : List Channel) (ts : String) :
    KindsIn [0, 1, 13] (waitForChannels env channels ts) := by
  unfold waitForChannels
  exact kinds_ite (kinds_mpure _ ())
    (kinds_bind (kinds_logM _ _ (by decide)) fun _ =>
      kinds_waitForChannelsLoop env channels ts maxPolls)

theorem kinds_flowStatusEach (env : Env) : ∀ flows, KindsIn [0, 12] (flowStatusEach env flows)
  | [] => kinds_mpure _ ()
  | flow :: rest => by
      unfold flowStatusEach
      refine kinds_bind (kinds_callAwsT _ _ (fun c => by simp [Event.kind])) fun r =>
        kinds_bind ?_ fun _ => kinds_flowStatusEach env rest
      split
      · exact kinds_logM _ _ (by decide)
      · exact kinds_logM _ _ (by decide)

theorem kinds_channelStatusEach (env : Env) :
    ∀ channels, KindsIn [0, 13] (channelStatusEach env channels)
  | [] => kinds_mpure _ ()
  | channel :: rest => by
      unfold channelStatusEach
      refine kinds_bind (kinds_callAwsT _ _ (fun c => by simp [Event.kind])) fun r =>
        kinds_bind ?_ fun _ => kinds_channelStatusEach env rest
      split
      · exact kinds_logM _ _ (by decide)
      · exact kinds_logM _ _ (by decide)

theorem kinds_asgStatusSection (env : Env) (st : ManagerState) :
    KindsIn [0, 6, 7] (asgStatusSection env st) := by
  unfold asgStatusSection
  split
  · exact kinds_mpure _ ()
  · refine kinds_bind (kinds_callAwsT _ _ (fun c => by simp [Event.kind])) fun r => ?_
    split
    · refine kinds_bind (kinds_logM _ _ (by decide)) fun _ => ?_
      split
      · exact kinds_mpure _ ()
      · refine kinds_bind (kinds_callAwsT _ _ (fun c => by simp [Event.kind])) fun tr => ?_
        split
        · exact kinds_logM _ _ (by decide)
        · exact kinds_logM _ _ (by decide)
    · exact kinds_mpure _ ()
    · exact kinds_logM _ _ (by decide)

theorem kinds_showStatus (env : Env) (st : ManagerState) :
    KindsIn [0, 6, 7, 12, 13] (showStatus env st) := by
  unfold showStatus
  refine kinds_bind (kinds_logM _ _ (by decide)) fun _ => ?_
  refine kinds_bind (kinds_mono (kinds_asgStatusSection env st) (by decide)) fun _ => ?_
  exact kinds_bind (kinds_mono (kinds_flowStatusEach env st.flows) (by decide)) fun _ =>
    kinds_mono (kinds_channelStatusEach env st.channels) (by decide)

/-!
### Phase-ordering reasoning for `stop()`
-/

theorem out_events_mk {α : Type} (es : List Event) (c : Nat) (r : Except String α) :
    (Out.mk es c r).events = es := rfl

theorem phasesOf_append (a b : List Event) : phasesOf (a ++ b) = phasesOf a ++ phasesOf b := by
  simp [phasesOf, List.filter_append]

theorem pairwise_le_of_all_eq {l : List Nat} {k : Nat} (h : ∀ r ∈ l, r = k) :
    List.Pairwise (fun a b => a ≤ b) l := by
  induction l with
  | nil => simp
  | cons x xs ih =>
      rw [List.pairwise_cons]
      constructor
      · intro b hb
        rw [h x (by simp), h b (by simp [hb])]
      · exact ih fun r hr => h r (by simp [hr])

theorem pb_mono {α : Type} {lo hi lo' hi' : Nat} {x : M α} (h : PB lo hi x)
    (hlo : lo' ≤ lo) (hhi : hi ≤ hi') : PB lo' hi' x := by
  intro c
  obtain ⟨hp, hb⟩ := h c
  exact ⟨hp, fun r hr => ⟨le_trans hlo (hb r hr).1, le_trans (hb r hr).2 hhi⟩⟩

theorem pb_bind {α β : Type} {lo mid hi : Nat} {x : M α} {f : α → M β}
    (hx : PB lo mid x) (hf : ∀ a, PB mid hi (f a)) (h1 : lo ≤ mid) (h2 : mid ≤ hi) :
    PB lo hi (x >>= f) := by
  intro c
  rcases hxc : x c with ⟨es, c', r⟩
  obtain ⟨hp1, hb1⟩ := hx c
  rw [hxc] at hp1 hb1
  cases r with
  | ok a =>
      obtain ⟨hp2, hb2⟩ := hf a c'
      rw [bind_apply_ok f hxc]
      simp only [out_events_mk] at *
      rw [phasesOf_append]
      constructor
      · rw [List.pairwise_append]
        refine ⟨hp1, hp2, fun r1 hr1 r2 hr2 => ?_⟩
        exact le_trans (hb1 r1 hr1).2 (hb2 r2 hr2).1
      · intro r hr
        rcases List.mem_append.mp hr with h | h
        · exact ⟨(hb1 r h).1, le_trans (hb1 r h).2 h2⟩
        · exact ⟨le_trans h1 (hb2 r h).1, (hb2 r h).2⟩
  | error m =>
      rw [bind_apply_err f hxc]
      simp only [out_events_mk] at *
      exact ⟨hp1, fun r hr => ⟨(hb1 r hr).1, le_trans (hb1 r hr).2 h2⟩⟩

/-- A computation whose event kinds all have phase 0 or phase `k` is
phase-bounded by `[k, k]`. -/
theorem pb_of_kinds {α : Type} {ks : List Nat} {k : Nat} {x : M α} (h : KindsIn ks x)
    (hk : ∀ j ∈ ks, phaseOfKind j = 0 ∨ phaseOfKind j = k) : PB k k x := by
  intro c
  have hall : ∀ r ∈ phasesOf (x c).events, r = k := by
    intro r hr
    simp only [phasesOf, List.mem_map, List.mem_filter] at hr
    obtain ⟨e, ⟨he, hne⟩, hrk⟩ := hr
    rcases hk e.kind (h c e he) with h0 | hkk
    · rw [Event.stopPhase, h0] at hne
      simp at hne
    · rw [← hrk, Event.stopPhase, hkk]
  exact ⟨pairwise_le_of_all_eq hall, fun r hr => by rw [hall r hr]; exact ⟨le_refl k, le_refl k⟩⟩

/-- A log line is phase-free, hence phase-bounded by any `[k, k]`. -/
theorem pb_logM (msg color : String) (k : Nat) : PB k k (logM msg color) :=
  pb_of_kinds (@kinds_logM [0] msg color (by decide))
    (fun j hj => by simp at hj; subst hj; exact Or.inl rfl)

/-- Sequencing equation: if `x` finishes ok and the continuation finishes,
the composite run is the concatenation. -/
theorem seq_ok {α β : Type} {x : M α} {f : α → M β} {c c1 c2 : Nat}
    {es1 es2 : List Event} {a : α} {r : Except String β}
    (h1 : x c = ⟨es1, c1, Except.ok a⟩) (h2 : f a c1 = ⟨es2, c2, r⟩) :
    (x >>= f) c = ⟨es1 ++ es2, c2, r⟩ := by
  rw [bind_apply_ok f h1, h2]

/-!
## Claim theorems
-/

theorem out_clock_mk {α : Type} (es : List Event) (c : Nat) (r : Except String α) :
    (Out.mk es c r).clock = c := rfl

theorem out_result_mk {α : Type} (es : List Event) (c : Nat) (r : Except String α) :
    (Out.mk es c r).result = r := rfl

/-- The status report always opens with the `📊 Status` log line and never
throws. -/
theorem showStatus_head (env : Env) (st : ManagerState) (c : Nat) :
    ∃ rest c', showStatus env st c =
      ⟨Event.log "📊 Status" "blue" :: rest, c', Except.ok ()⟩ := by
  have hnf : NF (asgStatusSection env st >>= fun _ =>
      flowStatusEach env st.flows >>= fun _ => channelStatusEach env st.channels) :=
    nf_bind (nf_asgStatusSection env st) fun _ =>
      nf_bind (nf_flowStatusEach env st.flows) fun _ => nf_channelStatusEach env st.channels
  obtain ⟨es1, c1, a1, h1⟩ := hnf c
  cases a1
  refine ⟨es1, c1, ?_⟩
  unfold showStatus
  exact seq_ok (logM_apply _ _ c) h1

/-- Claim C4: on the spec scenario (1 pool desired 2 with 0 in service, 2
standby flows, 1 idle channel, everything converging), `start()` from clock
0 produces exactly the expected interaction trace: one capacity-adjust call
to 2, capacity polls until 2 are in service, one target-health poll, exactly
2 flow-start calls, flow polls to ACTIVE, exactly 1 channel-start call, a
channel poll to RUNNING, and a final status report logging pool 2/2
(desired 2), both flows ACTIVE and the channel RUNNING — and it returns
without error. -/
theorem c4_start_scenario : start envScenario cfg0 0 = ⟨scenarioTrace, 1, Except.ok ()⟩ := rfl

/-- Claim C5: in every `stop()` invocation the nonzero stop-phases of the
trace (1 = channel-stop call, 2 = flow-stop call, 3 = capacity-pool
adjustment) appear in nondecreasing order: every channel-stop call precedes
every flow-stop call, which precedes the capacity shrink call. -/
theorem c5_stop_reverse_order (env : Env) (cfg : Config) (c : Nat) :
    List.Pairwise (fun a b => a ≤ b) (phasesOf ((stop env cfg) c).events) := by
  have hpb : PB 1 3 (stop env cfg) := by
    unfold stop
    have hd : PB 1 1 (discoverResources env cfg) :=
      pb_of_kinds (kinds_discoverResources env cfg) (by decide)
    refine pb_bind (pb_logM _ _ 1) (fun _ => ?_) (by decide) (by decide)
    refine pb_bind hd (fun st => ?_) (by decide) (by decide)
    have hsc : PB 1 1 (stopChannels env st.channels) :=
      pb_of_kinds (kinds_stopChannels env st.channels) (by decide)
    refine pb_bind hsc (fun _ => ?_) (by decide) (by decide)
    have hwc : PB 1 1 (waitForChannels env st.channels "IDLE") :=
      pb_of_kinds (kinds_waitForChannels env st.channels "IDLE") (by decide)
    refine pb_bind hwc (fun _ => ?_) (by decide) (by decide)
    have hsf : PB 2 2 (stopFlows env st.flows) :=
      pb_of_kinds (kinds_stopFlows env st.flows) (by decide)
    refine pb_bind (@pb_mono _ 2 2 1 2 _ hsf (by decide) (by decide)) (fun _ => ?_) (by decide) (by decide)
    have hwf : PB 2 2 (waitForFlows env st.flows "STANDBY") :=
      pb_of_kinds (kinds_waitForFlows env st.flows "STANDBY") (by decide)
    refine pb_bind hwf (fun _ => ?_) (by decide) (by decide)
    have hcap : PB 3 3 (setAutoScalingGroupCapacity env st 0) :=
      pb_of_kinds (kinds_setAutoScalingGroupCapacity env st 0) (by decide)
    refine pb_bind (@pb_mono _ 3 3 2 3 _ hcap (by decide) (by decide)) (fun _ => ?_) (by decide) (by decide)
    have hwa : PB 3 3 (waitForAutoScalingGroup env st 0) :=
      pb_of_kinds (kinds_waitForAutoScalingGroup env st 0) (by decide)
    refine pb_bind hwa (fun _ => ?_) (by decide) (by decide)
    refine pb_bind (pb_logM _ _ 3) (fun _ => ?_) (by decide) (by decide)
    have hss : PB 3 3 (showStatus env st) :=
      pb_of_kinds (kinds_showStatus env st) (by decide)
    exact hss
  exact (hpb c).1

/-- Claim C6: whatever the polling observations do (in particular when no
poll stage ever converges), as long as discovery succeeded and the
capacity-adjust call itself succeeds, `start()` runs to completion without
throwing and prints the status report, and `stop()` also completes without
throwing; a poll-loop timeout alone never fails either operation. -/
theorem c6_timeout_nonfatal (env : Env) (cfg : Config) (c cD : Nat) (esD : List Event)
    (st : ManagerState)
    (hd : discoverResources env cfg c = ⟨esD, cD, Except.ok st⟩)
    (hcap : ∀ n k, env.setDesiredCapacity n k = Except.ok ()) :
    (∃ es c', start env cfg c = ⟨es, c', Except.ok ()⟩ ∧ Event.log "📊 Status" "blue" ∈ es) ∧
    (∃ es c', stop env cfg c = ⟨es, c', Except.ok ()⟩) := by
  constructor
  · obtain ⟨es2, c2, a2, h2⟩ := nf_setAutoScalingGroupCapacity st 2 hcap cD
    cases a2
    obtain ⟨es3, c3, a3, h3⟩ := nf_waitForAutoScalingGroup env st 2 c2
    cases a3
    obtain ⟨es4, c4, a4, h4⟩ := nf_waitForTargetsHealthy env st c3
    cases a4
    obtain ⟨es5, c5, a5, h5⟩ := nf_startFlows env st.flows c4
    cases a5
    obtain ⟨es6, c6, a6, h6⟩ := nf_waitForFlows env st.flows "ACTIVE" c5
    cases a6
    obtain ⟨es7, c7, a7, h7⟩ := nf_startChannels env st.channels c6
    cases a7
    obtain ⟨es8, c8, a8, h8⟩ := nf_waitForChannels env st.channels "RUNNING" c7
    cases a8
    obtain ⟨es9, c9, h9⟩ := showStatus_head env st c8
    have hrun : start env cfg c =
        ⟨[Event.log "🚀 Starting streaming infrastructure" "green"] ++ (esD ++ (es2 ++ (es3 ++
          (es4 ++ (es5 ++ (es6 ++ (es7 ++ (es8 ++ ([Event.log "✅ Start complete" "green"] ++
          (Event.log "📊 Status" "blue" :: es9)))))))))), c9, Except.ok ()⟩ := by
      unfold start
      exact seq_ok (logM_apply _ _ c) (seq_ok hd (seq_ok h2 (seq_ok h3 (seq_ok h4
        (seq_ok h5 (seq_ok h6 (seq_ok h7 (seq_ok h8 (seq_ok (logM_apply _ _ c8) h9)))))))))
    exact ⟨_, c9, hrun, by simp⟩
  · obtain ⟨es2, c2, a2, h2⟩ := nf_stopChannels env st.channels cD
    cases a2
    obtain ⟨es3, c3, a3, h3⟩ := nf_waitForChannels env st.channels "IDLE" c2
    cases a3
    obtain ⟨es4, c4, a4, h4⟩ := nf_stopFlows env st.flows c3
    cases a4
    obtain ⟨es5, c5, a5, h5⟩ := nf_waitForFlows env st.flows "STANDBY" c4
    cases a5
    obtain ⟨es6, c6, a6, h6⟩ := nf_setAutoScalingGroupCapacity st 0 hcap c5
    cases a6
    obtain ⟨es7, c7, a7, h7⟩ := nf_waitForAutoScalingGroup env st 0 c6
    cases a7
    obtain ⟨es8, c8, a8, h8⟩ := nf_showStatus env st c7
    cases a8
    have hrun : stop env cfg c =
        ⟨[Event.log "🛑 Stopping streaming infrastructure" "yellow"] ++ (esD ++ (es2 ++ (es3 ++
          (es4 ++ (es5 ++ (es6 ++ (es7 ++ ([Event.log "✅ Stop complete" "green"] ++
          es8)))))))), c8, Except.ok ()⟩ := by
      unfold stop
      exact seq_ok (logM_apply _ _ c) (seq_ok hd (seq_ok h2 (seq_ok h3 (seq_ok h4
        (seq_ok h5 (seq_ok h6 (seq_ok h7 (seq_ok (logM_apply _ _ c7) h8))))))))
    exact ⟨_, c8, hrun⟩

/-- Witness for C6 at a concrete input: on `envFlowError` (discovery finds
one flow, one channel, no pool; the flow wait converges on an ERROR
observation) `start()` and `stop()` both return ok and the report banner is
printed. -/
theorem c6_timeout_nonfatal_witness :
    (∃ es c', start envFlowError cfg0 0 = ⟨es, c', Except.ok ()⟩ ∧
      Event.log "📊 Status" "blue" ∈ es) ∧
    (∃ es c', stop envFlowError cfg0 0 = ⟨es, c', Except.ok ()⟩) :=
  c6_timeout_nonfatal envFlowError cfg0 0 0 _ _ rfl (fun _ _ => rfl)

/-- Run of the capacity-adjust step when the control-plane call errors. -/
theorem setCap_err {env : Env} {st : ManagerState} {g : AutoScalingGroup} {d : Nat} {m : String}
    (hg : st.autoScalingGroup = some g) (he : env.setDesiredCapacity g.name d = Except.error m)
    (c : Nat) :
    setAutoScalingGroupCapacity env st d c =
      ⟨[Event.log ("🔧 Setting ASG desired capacity to " ++ toString d ++ "...") "blue",
        Event.awsSetDesiredCapacity g.name d (Except.error m)], c,
       Except.error ("Failed to set ASG capacity: " ++ m)⟩ := by
  unfold setAutoScalingGroupCapacity
  rw [hg]
  simp only [setAutoScalingGroupCapacityGo]
  rw [he]
  exact seq_ok (logM_apply _ _ c) (seq_ok (emitM_apply _ c) (throwM_apply _ c))

theorem not_start_event_of_kind {e : Event} (h8 : e.kind ≠ 8) (h10 : e.kind ≠ 10) :
    (!(isStartFlowEv e) && !(isStartChannelEv e)) = true := by
  simp [isStartFlowEv, isStartChannelEv, h8, h10]

/-- `main start` when `start()` threw: the red error line and exit code 1. -/
theorem mainRun_start_err {env : Env} {cfg : Config} {es : List Event} {c : Nat} {m : String}
    (h : start env cfg 0 = ⟨es, c, Except.error m⟩) :
    mainRun env cfg "start" = (es ++ [Event.log ("Error: " ++ m) "red"], 1) := by
  have h0 : mainRun env cfg "start" =
      (match (start env cfg 0).result with
       | Except.ok _ => ((start env cfg 0).events, 0)
       | Except.error m' => ((start env cfg 0).events ++ [Event.log ("Error: " ++ m') "red"], 1)) :=
    rfl
  rw [h0, h]

/-- Claim C9: if the capacity-adjust control-plane call itself errors during
`start()`, the run fails with `Failed to set ASG capacity: ...`, stops right
there (the trace contains no flow-start and no channel-start call), and the
invocation surface prints a red `Error:` line and exits 1; the wait loops
themselves never fail, so slow convergence alone cannot produce this error. -/
theorem c9_capacity_error (env : Env) (cfg : Config) (cD : Nat) (esD : List Event)
    (st : ManagerState) (g : AutoScalingGroup) (m : String)
    (hd : discoverResources env cfg 0 = ⟨esD, cD, Except.ok st⟩)
    (hg : st.autoScalingGroup = some g)
    (he : env.setDesiredCapacity g.name 2 = Except.error m) :
    (∃ es, start env cfg 0 = ⟨es, cD, Except.error ("Failed to set ASG capacity: " ++ m)⟩ ∧
      es.all (fun e => !(isStartFlowEv e) && !(isStartChannelEv e)) = true) ∧
    (mainRun env cfg "start").2 = 1 ∧
    (mainRun env cfg "start").1.getLast? =
      some (Event.log ("Error: " ++ ("Failed to set ASG capacity: " ++ m)) "red") ∧
    NF (waitForAutoScalingGroup env st 2) ∧ NF (waitForTargetsHealthy env st) := by
  have hcap := setCap_err hg he cD
  have hstart : start env cfg 0 =
      ⟨[Event.log "🚀 Starting streaming infrastructure" "green"] ++ (esD ++
        [Event.log ("🔧 Setting ASG desired capacity to " ++ toString 2 ++ "...") "blue",
         Event.awsSetDesiredCapacity g.name 2 (Except.error m)]), cD,
       Except.error ("Failed to set ASG capacity: " ++ m)⟩ := by
    unfold start
    exact seq_ok (logM_apply _ _ 0) (seq_ok hd (bind_apply_err _ hcap))
  have hesD : ∀ e ∈ esD, e.kind ∈ [0, 2, 3, 4] := by
    intro e he'
    have hh := kinds_discoverResources env cfg 0 e
    rw [hd] at hh
    exact hh he'
  refine ⟨⟨_, hstart, ?_⟩, ?_, ?_, nf_waitForAutoScalingGroup env st 2,
    nf_waitForTargetsHealthy env st⟩
  · rw [List.all_eq_true]
    intro e he'
    simp only [List.mem_append, List.mem_cons, List.mem_singleton, List.not_mem_nil,
      or_false] at he'
    rcases he' with h1 | h1 | h1 | h1
    · subst h1; decide
    · obtain ⟨h8, h10⟩ : e.kind ≠ 8 ∧ e.kind ≠ 10 := by
        have hh := hesD e h1
        simp only [List.mem_cons, List.mem_singleton, List.not_mem_nil, or_false] at hh
        rcases hh with h | h | h | h <;> rw [h] <;> exact ⟨by decide, by decide⟩
      exact not_start_event_of_kind h8 h10
    · subst h1; decide
    · subst h1
      exact not_start_event_of_kind (by simp [Event.kind]) (by simp [Event.kind])
  · rw [mainRun_start_err hstart]
  · rw [mainRun_start_err hstart, List.getLast?_append_of_ne_nil _ (by simp)]
    rfl

/-- Witness for C9 at a concrete input (`envCapFail`): the capacity call
fails and `main start` exits 1. -/
theorem c9_capacity_error_witness : (mainRun envCapFail cfg0 "start").2 = 1 :=
  (c9_capacity_error envCapFail cfg0 _ _ _ _ _ rfl rfl rfl).2.1

/-- Claim C10: one step of the capacity-pool wait loop uses an asymmetric
convergence predicate.  With a successful describe: for target 0 it
terminates exactly when the total instance count is 0 (whatever the
lifecycle states), otherwise it sleeps and keeps polling; for a positive
target it terminates exactly when the `InService` count reaches the target
(instances in other lifecycle states are ignored), otherwise it sleeps and
keeps polling.  A failed describe logs a warning and continues polling —
it never ends the loop early — and the loop as a whole never throws. -/
theorem c10_asg_wait_predicate (env : Env) (name : String) (tc fuel c : Nat) :
    (∀ a, env.describeAsgStatus c name = Except.ok (some a) →
      ((tc = 0 → a.instances.length = 0 →
        waitForAutoScalingGroupLoop env name tc (fuel + 1) c =
          ⟨[Event.awsDescribeAsgStatus name (Except.ok (some a)),
            Event.log ("📊 ASG instances: " ++
              toString ((a.instances.filter (fun i => i.lifecycleState == "InService")).length) ++
              "/" ++ toString a.instances.length ++ " in service, target: " ++ toString tc)
              "cyan",
            Event.log "✅ ASG scaled down to 0" "green"], c, Except.ok ()⟩) ∧
       (tc = 0 → a.instances.length ≠ 0 →
        waitForAutoScalingGroupLoop env name tc (fuel + 1) c =
          ⟨[Event.awsDescribeAsgStatus name (Except.ok (some a)),
            Event.log ("📊 ASG instances: " ++
              toString ((a.instances.filter (fun i => i.lifecycleState == "InService")).length) ++
              "/" ++ toString a.instances.length ++ " in service, target: " ++ toString tc)
              "cyan",
            Event.sleep POLL_INTERVAL_MS] ++
              (waitForAutoScalingGroupLoop env name tc fuel (c + 1)).events,
           (waitForAutoScalingGroupLoop env name tc fuel (c + 1)).clock,
           (waitForAutoScalingGroupLoop env name tc fuel (c + 1)).result⟩) ∧
       (tc ≠ 0 → (a.instances.filter (fun i => i.lifecycleState == "InService")).length ≥ tc →
        waitForAutoScalingGroupLoop env name tc (fuel + 1) c =
          ⟨[Event.awsDescribeAsgStatus name (Except.ok (some a)),
            Event.log ("📊 ASG instances: " ++
              toString ((a.instances.filter (fun i => i.lifecycleState == "InService")).length) ++
              "/" ++ toString a.instances.length ++ " in service, target: " ++ toString tc)
              "cyan",
            Event.log ("✅ ASG scaled up to " ++ toString tc) "green"], c, Except.ok ()⟩) ∧
       (tc ≠ 0 → (a.instances.filter (fun i => i.lifecycleState == "InService")).length < tc →
        waitForAutoScalingGroupLoop env name tc (fuel + 1) c =
          ⟨[Event.awsDescribeAsgStatus name (Except.ok (some a)),
            Event.log ("📊 ASG instances: " ++
              toString ((a.instances.filter (fun i => i.lifecycleState == "InService")).length) ++
              "/" ++ toString a.instances.length ++ " in service, target: " ++ toString tc)
              "cyan",
            Event.sleep POLL_INTERVAL_MS] ++
              (waitForAutoScalingGroupLoop env name tc fuel (c + 1)).events,
           (waitForAutoScalingGroupLoop env name tc fuel (c + 1)).clock,
           (waitForAutoScalingGroupLoop env name tc fuel (c + 1)).result⟩))) ∧
    (∀ m, env.describeAsgStatus c name = Except.error m →
      waitForAutoScalingGroupLoop env name tc (fuel + 1) c =
        ⟨[Event.awsDescribeAsgStatus name (Except.error m),
          Event.log ("⚠️  Error checking ASG status: " ++ m) "yellow",
          Event.sleep POLL_INTERVAL_MS] ++
            (waitForAutoScalingGroupLoop env name tc fuel (c + 1)).events,
         (waitForAutoScalingGroupLoop env name tc fuel (c + 1)).clock,
         (waitForAutoScalingGroupLoop env name tc fuel (c + 1)).result⟩) ∧
    NF (waitForAutoScalingGroupLoop env name tc fuel) := by
  refine ⟨fun a hok => ⟨?_, ?_, ?_, ?_⟩, fun m herr => ?_,
    nf_waitForAutoScalingGroupLoop env name tc fuel⟩
  · intro htc hcc
    subst htc
    simp only [waitForAutoScalingGroupLoop]
    rw [bind_apply_ok _ (callAwsT_apply _ _ c), hok]
    simp [M.bind, logM, bind_eq, hcc]
  · intro htc hcc
    subst htc
    simp only [waitForAutoScalingGroupLoop]
    rw [bind_apply_ok _ (callAwsT_apply _ _ c), hok]
    simp [M.bind, logM, sleepM, bind_eq, hcc]
  · intro htc hge
    simp only [waitForAutoScalingGroupLoop]
    rw [bind_apply_ok _ (callAwsT_apply _ _ c), hok]
    simp [M.bind, logM, bind_eq, htc, hge]
  · intro htc hlt
    have hn : ¬((a.instances.filter (fun i => i.lifecycleState == "InService")).length ≥ tc) :=
      Nat.not_le.mpr hlt
    simp only [waitForAutoScalingGroupLoop]
    rw [bind_apply_ok _ (callAwsT_apply _ _ c), hok]
    simp [M.bind, logM, sleepM, bind_eq, htc, hn]
  · simp only [waitForAutoScalingGroupLoop]
    rw [bind_apply_ok _ (callAwsT_apply _ _ c), herr]
    simp [M.bind, logM, sleepM, bind_eq]

/-- Witness for C10 at concrete inputs from the scenario environment: at
clock 0 the pool reports 0 of 0 in service, so the loop with target 2
continues; at clock 1 it reports 2 in service and the loop terminates. -/
theorem c10_asg_wait_predicate_witness :
    waitForAutoScalingGroupLoop envScenario "Stack-SecurityApplianceASG-XYZ" 2 1 1 =
      ⟨[Event.awsDescribeAsgStatus "Stack-SecurityApplianceASG-XYZ"
          (Except.ok (some ⟨[⟨"InService"⟩, ⟨"InService"⟩], 2⟩)),
        Event.log "📊 ASG instances: 2/2 in service, target: 2" "cyan",
        Event.log "✅ ASG scaled up to 2" "green"], 1, Except.ok ()⟩ :=
  ((c10_asg_wait_predicate envScenario "Stack-SecurityApplianceASG-XYZ" 2 0 1).1
    ⟨[⟨"InService"⟩, ⟨"InService"⟩], 2⟩ rfl).2.2.1 (by decide) (by decide)

/-- `start()` completes without error whenever discovery and the capacity
call succeed (regardless of everything else the environment reports). -/
theorem start_ok (env : Env) (cfg : Config) (c cD : Nat) (esD : List Event)
    (st : ManagerState)
    (hd : discoverResources env cfg c = ⟨esD, cD, Except.ok st⟩)
    (hcap : ∀ n k, env.setDesiredCapacity n k = Except.ok ()) :
    ∃ es c', start env cfg c = ⟨es, c', Except.ok ()⟩ := by
  obtain ⟨es2, c2, a2, h2⟩ := nf_setAutoScalingGroupCapacity st 2 hcap cD
  cases a2
  obtain ⟨es3, c3, a3, h3⟩ := nf_waitForAutoScalingGroup env st 2 c2
  cases a3
  obtain ⟨es4, c4, a4, h4⟩ := nf_waitForTargetsHealthy env st c3
  cases a4
  obtain ⟨es5, c5, a5, h5⟩ := nf_startFlows env st.flows c4
  cases a5
  obtain ⟨es6, c6, a6, h6⟩ := nf_waitForFlows env st.flows "ACTIVE" c5
  cases a6
  obtain ⟨es7, c7, a7, h7⟩ := nf_startChannels env st.channels c6
  cases a7
  obtain ⟨es8, c8, a8, h8⟩ := nf_waitForChannels env st.channels "RUNNING" c7
  cases a8
  obtain ⟨es9, c9, a9, h9⟩ := nf_showStatus env st c8
  cases a9
  refine ⟨[Event.log "🚀 Starting streaming infrastructure" "green"] ++ (esD ++ (es2 ++ (es3 ++
    (es4 ++ (es5 ++ (es6 ++ (es7 ++ (es8 ++ ([Event.log "✅ Start complete" "green"] ++
    es9))))))))), c9, ?_⟩
  unfold start
  exact seq_ok (logM_apply _ _ c) (seq_ok hd (seq_ok h2 (seq_ok h3 (seq_ok h4
    (seq_ok h5 (seq_ok h6 (seq_ok h7 (seq_ok h8 (seq_ok (logM_apply _ _ c8) h9)))))))))

/-- When every flow-start call reports the `not in STANDBY state` error
(the flow is already running), the flow-start stage treats each flow as a
success: it logs the yellow `already running` line per flow and nothing
else. -/
theorem startFlowsEach_already (env : Env) :
    ∀ flows, (∀ f ∈ flows, ∃ m, env.startFlow f.arn = Except.error m ∧
      includes m "STANDBY" = true) →
    ∀ c, startFlowsEach env flows c =
      ⟨(flows.map (fun f => [Event.awsStartFlow f.arn (env.startFlow f.arn),
        Event.log ("⚠️  " ++ f.name ++ " already running") "yellow"])).join, c, Except.ok ()⟩
  | [], _, c => rfl
  | flow :: rest, h, c => by
      obtain ⟨m, hm, hstand⟩ := h flow (by simp)
      have ih := startFlowsEach_already env rest (fun f hf => h f (by simp [hf])) c
      simp only [startFlowsEach]
      rw [bind_apply_ok _ (emitM_apply _ c), hm]
      simp [M.bind, bind_eq, logM, hstand, ih, hm]

/-- Channel analogue of `startFlowsEach_already` for the `not in IDLE
state` response. -/
theorem startChannelsEach_already (env : Env) :
    ∀ channels, (∀ ch ∈ channels, ∃ m, env.startChannel ch.id = Except.error m ∧
      includes m "IDLE" = true) →
    ∀ c, startChannelsEach env channels c =
      ⟨(channels.map (fun ch => [Event.awsStartChannel ch.id (env.startChannel ch.id),
        Event.log ("⚠️  " ++ ch.name ++ " already running") "yellow"])).join, c, Except.ok ()⟩
  | [], _, c => rfl
  | channel :: rest, h, c => by
      obtain ⟨m, hm, hidle⟩ := h channel (by simp)
      have ih := startChannelsEach_already env rest (fun ch hch => h ch (by simp [hch])) c
      simp only [startChannelsEach]
      rw [bind_apply_ok _ (emitM_apply _ c), hm]
      simp [M.bind, bind_eq, logM, hidle, ih, hm]

/-- Claim C7: a second `start()` when all flows are already Active and all
channels already Running (so every start call returns the
`not in STANDBY` / `not in IDLE` validation error) raises no transition
error: `start()` completes ok, each flow-start is logged with the yellow
`already running` line (never a red failure line), and likewise for
channels. -/
theorem c7_idempotent_start (env : Env) (cfg : Config) (c cD : Nat) (esD : List Event)
    (st : ManagerState)
    (hd : discoverResources env cfg c = ⟨esD, cD, Except.ok st⟩)
    (hcap : ∀ n k, env.setDesiredCapacity n k = Except.ok ())
    (hflows : ∀ f ∈ st.flows, ∃ m, env.startFlow f.arn = Except.error m ∧
      includes m "STANDBY" = true)
    (hchans : ∀ ch ∈ st.channels, ∃ m, env.startChannel ch.id = Except.error m ∧
      includes m "IDLE" = true) :
    (∃ es c', start env cfg c = ⟨es, c', Except.ok ()⟩) ∧
    (∀ c', ∀ f ∈ st.flows,
      Event.log ("⚠️  " ++ f.name ++ " already running") "yellow" ∈
        (startFlowsEach env st.flows c').events) ∧
    (∀ c', (startFlowsEach env st.flows c').events.all (fun e => !(isRedLog e)) = true ∧
      (startFlowsEach env st.flows c').result = Except.ok ()) ∧
    (∀ c', (startChannelsEach env st.channels c').events.all (fun e => !(isRedLog e)) = true ∧
      (startChannelsEach env st.channels c').result = Except.ok ()) := by
  refine ⟨start_ok env cfg c cD esD st hd hcap, ?_, ?_, ?_⟩
  · intro c' f hf
    rw [startFlowsEach_already env st.flows hflows c']
    simp only [out_events_mk, List.mem_join, List.mem_map]
    exact ⟨_, ⟨f, hf, rfl⟩, by simp⟩
  · intro c'
    rw [startFlowsEach_already env st.flows hflows c']
    refine ⟨?_, rfl⟩
    rw [List.all_eq_true]
    intro e he
    simp only [out_events_mk, List.mem_join, List.mem_map] at he
    obtain ⟨s, ⟨f, hf, rfl⟩, hes⟩ := he
    simp only [List.mem_cons, List.not_mem_nil, or_false] at hes
    rcases hes with rfl | rfl
    · rfl
    · rfl
  · intro c'
    rw [startChannelsEach_already env st.channels hchans c']
    refine ⟨?_, rfl⟩
    rw [List.all_eq_true]
    intro e he
    simp only [out_events_mk, List.mem_join, List.mem_map] at he
    obtain ⟨s, ⟨ch, hch, rfl⟩, hes⟩ := he
    simp only [List.mem_cons, List.not_mem_nil, or_false] at hes
    rcases hes with rfl | rfl
    · rfl
    · rfl

/-- Witness for C7 at the concrete `envAlready` environment: two flows
already Active, one channel already Running; the second `start()` returns
ok. -/
theorem c7_idempotent_start_witness :
    (∃ es c', start envAlready cfg0 0 = ⟨es, c', Except.ok ()⟩) ∧
    Event.log "⚠️  Flow1FlowArn already running" "yellow" ∈
      (startFlowsEach envAlready
        [⟨"Flow1FlowArn", "arn-flow1"⟩, ⟨"Flow2FlowArn", "arn-flow2"⟩] 0).events := by
  have h := c7_idempotent_start envAlready cfg0 0 0 _ _ rfl (fun _ _ => rfl)
    (by intro f hf; exact ⟨_, rfl, by fin_cases hf <;> decide⟩)
    (by intro ch hch; exact ⟨_, rfl, by fin_cases hch <;> decide⟩)
  exact ⟨h.1, h.2.1 0 ⟨"Flow1FlowArn", "arn-flow1"⟩ (by decide)⟩

/-- Claim C2 (amended): `restart()` runs `stop()`; when `stop()` completes
(which it does even when individual channel/flow stop calls fail, since
those are caught and logged inside `stop()`), a fixed 10-second cooldown
sleep follows and then `start()` runs; but when `stop()` throws (discovery
or the capacity-adjust call failed), `restart()` propagates that error and
neither the cooldown nor `start()` is reached. -/
theorem c2_amended (env : Env) (cfg : Config) (c : Nat) :
    (∀ es c' m, stop env cfg c = ⟨es, c', Except.error m⟩ →
      restart env cfg c = ⟨es, c', Except.error m⟩) ∧
    (∀ es c', stop env cfg c = ⟨es, c', Except.ok ()⟩ →
      restart env cfg c = ⟨es ++ ([Event.log "⏳ Waiting 10 seconds..." "yellow"] ++
          ([Event.sleep 10000] ++ (start env cfg (c' + 1)).events)),
        (start env cfg (c' + 1)).clock, (start env cfg (c' + 1)).result⟩) := by
  constructor
  · intro es c' m h
    unfold restart
    exact bind_apply_err _ h
  · intro es c' h
    unfold restart
    exact seq_ok h (seq_ok (logM_apply _ _ c') (seq_ok (sleepM_apply _ c')
      (rfl : start env cfg (c' + 1) = ⟨(start env cfg (c' + 1)).events,
        (start env cfg (c' + 1)).clock, (start env cfg (c' + 1)).result⟩)))

/-- Witness for C2 (amended) at `envStacksFail`: `stop()` throws during
discovery and `restart()` propagates the error without reaching `start()`. -/
theorem c2_amended_witness :
    restart envStacksFail cfg0 0 =
      ⟨[Event.log "🛑 Stopping streaming infrastructure" "yellow",
        Event.log "🔍 Discovering resources..." "blue",
        Event.awsDescribeStacks (Except.error "Command failed: boom")], 0,
       Except.error "Failed to discover resources: Command failed: boom"⟩ :=
  (c2_amended envStacksFail cfg0 0).1 _ _ _ rfl

/-- Claim C8 (amended): discovery throws (`Failed to discover resources:`)
exactly when the stack-outputs describe call fails; when that call succeeds
discovery always returns ok — matching nothing yields empty collections
(with the warning visible in the concrete no-match trace below), a failed
auto-scaling-group describe is caught and logged as a warning with the group
left absent (last conjunct), and the subsequent start/stop stages on empty
collections are no-ops that raise no error (an absent pool makes the
capacity step a warning-only no-op). -/
theorem c8_discovery_empty :
    (∀ (env : Env) (cfg : Config) (c : Nat) (m : String), env.describeStacks = Except.error m →
      discoverResources env cfg c =
        ⟨[Event.log "🔍 Discovering resources..." "blue",
          Event.awsDescribeStacks (Except.error m)], c,
         Except.error ("Failed to discover resources: " ++ m)⟩) ∧
    (∀ (env : Env) (cfg : Config) (c : Nat) (sl : List Stack), env.describeStacks = Except.ok sl →
      ∃ es c' st, discoverResources env cfg c = ⟨es, c', Except.ok st⟩) ∧
    (∀ (env : Env) (c : Nat) (ts : String),
      startFlows env [] c = ⟨[], c, Except.ok ()⟩ ∧
      stopFlows env [] c = ⟨[], c, Except.ok ()⟩ ∧
      startChannels env [] c = ⟨[], c, Except.ok ()⟩ ∧
      stopChannels env [] c = ⟨[], c, Except.ok ()⟩ ∧
      waitForFlows env [] ts c = ⟨[], c, Except.ok ()⟩ ∧
      waitForChannels env [] ts c = ⟨[], c, Except.ok ()⟩) ∧
    (∀ (env : Env) (fl : List Flow) (ch : List Channel) (d c : Nat),
      setAutoScalingGroupCapacity env ⟨fl, ch, none⟩ d c =
        ⟨[Event.log "⚠️  No Auto Scaling Group found" "yellow"], c, Except.ok ()⟩) ∧
    (discoverResources envNoMatch cfg0 0 =
      ⟨[Event.log "🔍 Discovering resources..." "blue",
        Event.awsDescribeStacks (Except.ok [⟨[⟨"SomeOtherOutput", "value-1"⟩]⟩]),
        Event.awsListChannels (Except.ok [⟨"OtherChannel", "ch-9"⟩]),
        Event.awsDescribeASGs (Except.ok
          [⟨"UnrelatedASG", [⟨"aws:cloudformation:stack-name", "OtherStack"⟩], []⟩]),
        Event.log "🔍 Found 1 Auto Scaling Groups" "cyan",
        Event.log "⚠️  No matching Auto Scaling Group found" "yellow",
        Event.log "✅ Found 0 flows, 0 channels, 0 ASG" "green"], 0,
       Except.ok ({ flows := [], channels := [], autoScalingGroup := none } : ManagerState)⟩ ∧
     (start envNoMatch cfg0 0).result = Except.ok () ∧
     (stop envNoMatch cfg0 0).result = Except.ok ()) ∧
    (discoverResources envAsgFail cfg0 0 =
      ⟨[Event.log "🔍 Discovering resources..." "blue",
        Event.awsDescribeStacks (Except.ok [⟨[⟨"SomeOtherOutput", "value-1"⟩]⟩]),
        Event.awsListChannels (Except.ok []),
        Event.awsDescribeASGs (Except.error "Command failed: asg boom"),
        Event.log "⚠️  Could not find Auto Scaling Group: Error: Command failed: asg boom"
          "yellow",
        Event.log "✅ Found 0 flows, 0 channels, 0 ASG" "green"], 0,
       Except.ok ({ flows := [], channels := [], autoScalingGroup := none } : ManagerState)⟩) := by
  refine ⟨?_, ?_, ?_, ?_, ⟨rfl, rfl, rfl⟩, rfl⟩
  · intro env cfg c m h
    unfold discoverResources
    rw [h]
    exact seq_ok (logM_apply _ _ c) (seq_ok (emitM_apply _ c) (throwM_apply _ c))
  · intro env cfg c sl h
    obtain ⟨es, c', st, hh⟩ := nf_discoverResources cfg h c
    exact ⟨es, c', st, hh⟩
  · exact fun env c ts => ⟨rfl, rfl, rfl, rfl, rfl, rfl⟩
  · exact fun env fl ch d c => rfl

/-- Witness for C8 (amended): the stack describe failure makes discovery
throw on `envStacksFail`, while on `envNoMatch` (stack describe succeeds,
nothing matches) discovery returns ok. -/
theorem c8_discovery_empty_witness :
    discoverResources envStacksFail cfg0 0 =
      ⟨[Event.log "🔍 Discovering resources..." "blue",
        Event.awsDescribeStacks (Except.error "Command failed: boom")], 0,
       Except.error "Failed to discover resources: Command failed: boom"⟩ ∧
    (∃ es c' st, discoverResources envNoMatch cfg0 0 = ⟨es, c', Except.ok st⟩) :=
  ⟨c8_discovery_empty.1 envStacksFail cfg0 0 _ rfl,
   c8_discovery_empty.2.1 envNoMatch cfg0 0 _ rfl⟩

theorem errorsLogged_cons_of_not_errored {e : Event} (h : isErroredCall e = false)
    (l : List Event) : errorsLogged (e :: l) = errorsLogged l := by
  cases l with
  | nil => simp [errorsLogged, h]
  | cons f rest => simp [errorsLogged, h]

theorem errorsLogged_cons {e : Event} {l : List Event} (h : isErroredCall e = false)
    (hl : errorsLogged l = true) : errorsLogged (e :: l) = true := by
  rw [errorsLogged_cons_of_not_errored h]
  exact hl

theorem errorsLogged_pair {e f : Event} {l : List Event}
    (h2 : isErroredCall e = true → isWarnLog f = true)
    (h3 : isErroredCall f = false) (hrest : errorsLogged l = true) :
    errorsLogged (e :: f :: l) = true := by
  have hf : errorsLogged (f :: l) = true := by
    rw [errorsLogged_cons_of_not_errored h3]
    exact hrest
  show ((!isErroredCall e || isWarnLog f) && errorsLogged (f :: l)) = true
  rw [hf]
  cases he : isErroredCall e
  · simp
  · simp [h2 he]

/-- Each failed flow-start call is immediately followed by a warning-level
log (yellow `already running` or red `Failed to start`). -/
theorem errorsLogged_startFlowsEach (env : Env) :
    ∀ flows c, errorsLogged ((startFlowsEach env flows) c).events = true
  | [], _ => rfl
  | flow :: rest, c => by
      obtain ⟨esR, cR, aR, hR⟩ := nf_startFlowsEach env rest c
      cases aR
      have ih := errorsLogged_startFlowsEach env rest c
      rw [hR] at ih
      cases hcall : env.startFlow flow.arn with
      | ok u =>
          cases u
          have heq : startFlowsEach env (flow :: rest) c =
              ⟨[Event.awsStartFlow flow.arn (Except.ok ()),
                Event.log ("✅ Started " ++ flow.name) "green"] ++ esR, cR, Except.ok ()⟩ := by
            simp only [startFlowsEach]
            rw [bind_apply_ok _ (emitM_apply _ c), hcall]
            simp [M.bind, bind_eq, logM, hR]
          rw [heq]
          simp only [out_events_mk, List.cons_append, List.nil_append]
          exact errorsLogged_cons rfl (errorsLogged_cons rfl ih)
      | error m =>
          cases hinc : includes m "STANDBY" with
          | true =>
              have heq : startFlowsEach env (flow :: rest) c =
                  ⟨[Event.awsStartFlow flow.arn (Except.error m),
                    Event.log ("⚠️  " ++ flow.name ++ " already running") "yellow"] ++ esR, cR,
                   Except.ok ()⟩ := by
                simp only [startFlowsEach]
                rw [bind_apply_ok _ (emitM_apply _ c), hcall]
                simp [M.bind, bind_eq, logM, hR, hinc]
              rw [heq]
              simp only [out_events_mk, List.cons_append, List.nil_append]
              exact errorsLogged_pair (fun _ => rfl) rfl ih
          | false =>
              have heq : startFlowsEach env (flow :: rest) c =
                  ⟨[Event.awsStartFlow flow.arn (Except.error m),
                    Event.log ("❌ Failed to start " ++ flow.name ++ ": " ++ m) "red"] ++ esR, cR,
                   Except.ok ()⟩ := by
                simp only [startFlowsEach]
                rw [bind_apply_ok _ (emitM_apply _ c), hcall]
                simp [M.bind, bind_eq, logM, hR, hinc]
              rw [heq]
              simp only [out_events_mk, List.cons_append, List.nil_append]
              exact errorsLogged_pair (fun _ => rfl) rfl ih


/-- Each failed flow-stop call is immediately followed by a warning-level log. -/
theorem errorsLogged_stopFlowsEach (env : Env) :
    ∀ flows c, errorsLogged ((stopFlowsEach env flows) c).events = true
  | [], _ => rfl
  | flow :: rest, c => by
      obtain ⟨esR, cR, aR, hR⟩ := nf_stopFlowsEach env rest c
      cases aR
      have ih := errorsLogged_stopFlowsEach env rest c
      rw [hR] at ih
      cases hcall : env.stopFlow flow.arn with
      | ok u =>
          cases u
          have heq : stopFlowsEach env (flow :: rest) c =
              ⟨[Event.awsStopFlow flow.arn (Except.ok ()),
                Event.log ("✅ Stopped " ++ flow.name) "green"] ++ esR, cR, Except.ok ()⟩ := by
            simp only [stopFlowsEach]
            rw [bind_apply_ok _ (emitM_apply _ c), hcall]
            simp [M.bind, bind_eq, logM, hR]
          rw [heq]
          simp only [out_events_mk, List.cons_append, List.nil_append]
          exact errorsLogged_cons rfl (errorsLogged_cons rfl ih)
      | error m =>
          cases hinc : includes m "ACTIVE" with
          | true =>
              have heq : stopFlowsEach env (flow :: rest) c =
                  ⟨[Event.awsStopFlow flow.arn (Except.error m),
                    Event.log ("⚠️  " ++ flow.name ++ " already stopped") "yellow"] ++ esR, cR,
                   Except.ok ()⟩ := by
                simp only [stopFlowsEach]
                rw [bind_apply_ok _ (emitM_apply _ c), hcall]
                simp [M.bind, bind_eq, logM, hR, hinc]
              rw [heq]
              simp only [out_events_mk, List.cons_append, List.nil_append]
              exact errorsLogged_pair (fun _ => rfl) rfl ih
          | false =>
              have heq : stopFlowsEach env (flow :: rest) c =
                  ⟨[Event.awsStopFlow flow.arn (Except.error m),
                    Event.log ("❌ Failed to stop " ++ flow.name ++ ": " ++ m) "red"] ++ esR, cR,
                   Except.ok ()⟩ := by
                simp only [stopFlowsEach]
                rw [bind_apply_ok _ (emitM_apply _ c), hcall]
                simp [M.bind, bind_eq, logM, hR, hinc]
              rw [heq]
              simp only [out_events_mk, List.cons_append, List.nil_append]
              exact errorsLogged_pair (fun _ => rfl) rfl ih

/-- Each failed channel-start call is immediately followed by a warning-level log. -/
theorem errorsLogged_startChannelsEach (env : Env) :
    ∀ channels c, errorsLogged ((startChannelsEach env channels) c).events = true
  | [], _ => rfl
  | channel :: rest, c => by
      obtain ⟨esR, cR, aR, hR⟩ := nf_startChannelsEach env rest c
      cases aR
      have ih := errorsLogged_startChannelsEach env rest c
      rw [hR] at ih
      cases hcall : env.startChannel channel.id with
      | ok u =>
          cases u
          have heq : startChannelsEach env (channel :: rest) c =
              ⟨[Event.awsStartChannel channel.id (Except.ok ()),
                Event.log ("✅ Started " ++ channel.name) "green"] ++ esR, cR, Except.ok ()⟩ := by
            simp only [startChannelsEach]
            rw [bind_apply_ok _ (emitM_apply _ c), hcall]
            simp [M.bind, bind_eq, logM, hR]
          rw [heq]
          simp only [out_events_mk, List.cons_append, List.nil_append]
          exact errorsLogged_cons rfl (errorsLogged_cons rfl ih)
      | error m =>
          cases hinc : includes m "IDLE" with
          | true =>
              have heq : startChannelsEach env (channel :: rest) c =
                  ⟨[Event.awsStartChannel channel.id (Except.error m),
                    Event.log ("⚠️  " ++ channel.name ++ " already running") "yellow"] ++ esR, cR,
                   Except.ok ()⟩ := by
                simp only [startChannelsEach]
                rw [bind_apply_ok _ (emitM_apply _ c), hcall]
                simp [M.bind, bind_eq, logM, hR, hinc]
              rw [heq]
              simp only [out_events_mk, List.cons_append, List.nil_append]
              exact errorsLogged_pair (fun _ => rfl) rfl ih
          | false =>
              have heq : startChannelsEach env (channel :: rest) c =
                  ⟨[Event.awsStartChannel channel.id (Except.error m),
                    Event.log ("❌ Failed to start " ++ channel.name ++ ": " ++ m) "red"] ++ esR, cR,
                   Except.ok ()⟩ := by
                simp only [startChannelsEach]
                rw [bind_apply_ok _ (emitM_apply _ c), hcall]
                simp [M.bind, bind_eq, logM, hR, hinc]
              rw [heq]
              simp only [out_events_mk, List.cons_append, List.nil_append]
              exact errorsLogged_pair (fun _ => rfl) rfl ih

/-- Each failed channel-stop call is immediately followed by a warning-level log. -/
theorem errorsLogged_stopChannelsEach (env : Env) :
    ∀ channels c, errorsLogged ((stopChannelsEach env channels) c).events = true
  | [], _ => rfl
  | channel :: rest, c => by
      obtain ⟨esR, cR, aR, hR⟩ := nf_stopChannelsEach env rest c
      cases aR
      have ih := errorsLogged_stopChannelsEach env rest c
      rw [hR] at ih
      cases hcall : env.stopChannel channel.id with
      | ok u =>
          cases u
          have heq : stopChannelsEach env (channel :: rest) c =
              ⟨[Event.awsStopChannel channel.id (Except.ok ()),
                Event.log ("✅ Stopped " ++ channel.name) "green"] ++ esR, cR, Except.ok ()⟩ := by
            simp only [stopChannelsEach]
            rw [bind_apply_ok _ (emitM_apply _ c), hcall]
            simp [M.bind, bind_eq, logM, hR]
          rw [heq]
          simp only [out_events_mk, List.cons_append, List.nil_append]
          exact errorsLogged_cons rfl (errorsLogged_cons rfl ih)
      | error m =>
          cases hinc : includes m "RUNNING" with
          | true =>
              have heq : stopChannelsEach env (channel :: rest) c =
                  ⟨[Event.awsStopChannel channel.id (Except.error m),
                    Event.log ("⚠️  " ++ channel.name ++ " already stopped") "yellow"] ++ esR, cR,
                   Except.ok ()⟩ := by
                simp only [stopChannelsEach]
                rw [bind_apply_ok _ (emitM_apply _ c), hcall]
                simp [M.bind, bind_eq, logM, hR, hinc]
              rw [heq]
              simp only [out_events_mk, List.cons_append, List.nil_append]
              exact errorsLogged_pair (fun _ => rfl) rfl ih
          | false =>
              have heq : stopChannelsEach env (channel :: rest) c =
                  ⟨[Event.awsStopChannel channel.id (Except.error m),
                    Event.log ("❌ Failed to stop " ++ channel.name ++ ": " ++ m) "red"] ++ esR, cR,
                   Except.ok ()⟩ := by
                simp only [stopChannelsEach]
                rw [bind_apply_ok _ (emitM_apply _ c), hcall]
                simp [M.bind, bind_eq, logM, hR, hinc]
              rw [heq]
              simp only [out_events_mk, List.cons_append, List.nil_append]
              exact errorsLogged_pair (fun _ => rfl) rfl ih

/-- Every failed target-health describe inside the target wait loop is
immediately followed by the yellow warning line. -/
theorem errorsLogged_waitForTargetsHealthyLoop (env : Env) (tgArn : String) :
    ∀ fuel c, errorsLogged ((waitForTargetsHealthyLoop env tgArn fuel) c).events = true
  | 0, _ => rfl
  | fuel + 1, c => by
      obtain ⟨esR, cR, aR, hR⟩ := nf_waitForTargetsHealthyLoop env tgArn fuel (c + 1)
      cases aR
      have ih := errorsLogged_waitForTargetsHealthyLoop env tgArn fuel (c + 1)
      rw [hR] at ih
      cases hcall : env.describeTargetHealth c tgArn with
      | error m =>
          have heq : waitForTargetsHealthyLoop env tgArn (fuel + 1) c =
              ⟨[Event.awsDescribeTargetHealth tgArn (Except.error m),
                Event.log ("⚠️  Error checking target health: " ++ m) "yellow",
                Event.sleep POLL_INTERVAL_MS] ++ esR, cR, Except.ok ()⟩ := by
            simp only [waitForTargetsHealthyLoop]
            rw [bind_apply_ok _ (callAwsT_apply _ _ c), hcall]
            simp [M.bind, bind_eq, logM, sleepM, hR]
          rw [heq]
          simp only [out_events_mk, List.cons_append, List.nil_append]
          exact errorsLogged_pair (fun _ => rfl) rfl (errorsLogged_cons rfl ih)
      | ok targets =>
          by_cases hlen : targets.length = 0
          · have heq : waitForTargetsHealthyLoop env tgArn (fuel + 1) c =
                ⟨[Event.awsDescribeTargetHealth tgArn (Except.ok targets),
                  Event.log "⏳ No targets registered yet..." "yellow",
                  Event.sleep POLL_INTERVAL_MS] ++ esR, cR, Except.ok ()⟩ := by
              simp only [waitForTargetsHealthyLoop]
              rw [bind_apply_ok _ (callAwsT_apply _ _ c), hcall]
              simp [M.bind, bind_eq, logM, sleepM, hR, hlen]
            rw [heq]
            simp only [out_events_mk, List.cons_append, List.nil_append]
            exact errorsLogged_cons rfl (errorsLogged_cons rfl (errorsLogged_cons rfl ih))
          · by_cases hh : (targets.filter (fun t => t.state == "healthy")).length ≥ 2
            · have heq : waitForTargetsHealthyLoop env tgArn (fuel + 1) c =
                  ⟨[Event.awsDescribeTargetHealth tgArn (Except.ok targets),
                    Event.log ("📊 Healthy targets: " ++
                      toString ((targets.filter (fun t => t.state == "healthy")).length) ++ "/" ++
                      toString targets.length) "cyan",
                    Event.log "✅ GWLB targets are healthy" "green"], c, Except.ok ()⟩ := by
                simp only [waitForTargetsHealthyLoop]
                rw [bind_apply_ok _ (callAwsT_apply _ _ c), hcall]
                simp [M.bind, bind_eq, logM, hlen, hh]
              rw [heq]
              exact errorsLogged_cons rfl (errorsLogged_cons rfl rfl)
            · have heq : waitForTargetsHealthyLoop env tgArn (fuel + 1) c =
                  ⟨[Event.awsDescribeTargetHealth tgArn (Except.ok targets),
                    Event.log ("📊 Healthy targets: " ++
                      toString ((targets.filter (fun t => t.state == "healthy")).length) ++ "/" ++
                      toString targets.length) "cyan",
                    Event.sleep POLL_INTERVAL_MS] ++ esR, cR, Except.ok ()⟩ := by
                simp only [waitForTargetsHealthyLoop]
                rw [bind_apply_ok _ (callAwsT_apply _ _ c), hcall]
                simp [M.bind, bind_eq, logM, sleepM, hR, hlen, hh]
              rw [heq]
              simp only [out_events_mk, List.cons_append, List.nil_append]
              exact errorsLogged_cons rfl (errorsLogged_cons rfl (errorsLogged_cons rfl ih))

/-- Every failed pool describe inside the capacity wait loop is immediately
followed by the yellow warning line. -/
theorem errorsLogged_waitForAutoScalingGroupLoop (env : Env) (name : String) (tc : Nat) :
    ∀ fuel c, errorsLogged ((waitForAutoScalingGroupLoop env name tc fuel) c).events = true
  | 0, _ => rfl
  | fuel + 1, c => by
      obtain ⟨esR, cR, aR, hR⟩ := nf_waitForAutoScalingGroupLoop env name tc fuel (c + 1)
      cases aR
      have ih := errorsLogged_waitForAutoScalingGroupLoop env name tc fuel (c + 1)
      rw [hR] at ih
      cases hcall : env.describeAsgStatus c name with
      | error m =>
          have heq : waitForAutoScalingGroupLoop env name tc (fuel + 1) c =
              ⟨[Event.awsDescribeAsgStatus name (Except.error m),
                Event.log ("⚠️  Error checking ASG status: " ++ m) "yellow",
                Event.sleep POLL_INTERVAL_MS] ++ esR, cR, Except.ok ()⟩ := by
            simp only [waitForAutoScalingGroupLoop]
            rw [bind_apply_ok _ (callAwsT_apply _ _ c), hcall]
            simp [M.bind, bind_eq, logM, sleepM, hR]
          rw [heq]
          simp only [out_events_mk, List.cons_append, List.nil_append]
          exact errorsLogged_pair (fun _ => rfl) rfl (errorsLogged_cons rfl ih)
      | ok o =>
          cases o with
          | none =>
              have heq : waitForAutoScalingGroupLoop env name tc (fuel + 1) c =
                  ⟨[Event.awsDescribeAsgStatus name (Except.ok none),
                    Event.sleep POLL_INTERVAL_MS] ++ esR, cR, Except.ok ()⟩ := by
                simp only [waitForAutoScalingGroupLoop]
                rw [bind_apply_ok _ (callAwsT_apply _ _ c), hcall]
                simp [M.bind, bind_eq, sleepM, hR]
              rw [heq]
              simp only [out_events_mk, List.cons_append, List.nil_append]
              exact errorsLogged_cons rfl (errorsLogged_cons rfl ih)
          | some asg =>
              by_cases htc : tc = 0
              · subst htc
                by_cases hcc : asg.instances.length = 0
                · have heq : waitForAutoScalingGroupLoop env name 0 (fuel + 1) c =
                      ⟨[Event.awsDescribeAsgStatus name (Except.ok (some asg)),
                        Event.log ("📊 ASG instances: " ++
                          toString ((asg.instances.filter
                            (fun i => i.lifecycleState == "InService")).length) ++ "/" ++
                          toString asg.instances.length ++ " in service, target: " ++
                          toString 0) "cyan",
                        Event.log "✅ ASG scaled down to 0" "green"], c, Except.ok ()⟩ := by
                    simp only [waitForAutoScalingGroupLoop]
                    rw [bind_apply_ok _ (callAwsT_apply _ _ c), hcall]
                    simp [M.bind, bind_eq, logM, hcc]
                  rw [heq]
                  exact errorsLogged_cons rfl (errorsLogged_cons rfl rfl)
                · have heq : waitForAutoScalingGroupLoop env name 0 (fuel + 1) c =
                      ⟨[Event.awsDescribeAsgStatus name (Except.ok (some asg)),
                        Event.log ("📊 ASG instances: " ++
                          toString ((asg.instances.filter
                            (fun i => i.lifecycleState == "InService")).length) ++ "/" ++
                          toString asg.instances.length ++ " in service, target: " ++
                          toString 0) "cyan",
                        Event.sleep POLL_INTERVAL_MS] ++ esR, cR, Except.ok ()⟩ := by
                    simp only [waitForAutoScalingGroupLoop]
                    rw [bind_apply_ok _ (callAwsT_apply _ _ c), hcall]
                    simp [M.bind, bind_eq, logM, sleepM, hR, hcc]
                  rw [heq]
                  simp only [out_events_mk, List.cons_append, List.nil_append]
                  exact errorsLogged_cons rfl (errorsLogged_cons rfl (errorsLogged_cons rfl ih))
              · by_cases hge :
                  (asg.instances.filter (fun i => i.lifecycleState == "InService")).length ≥ tc
                · have heq : waitForAutoScalingGroupLoop env name tc (fuel + 1) c =
                      ⟨[Event.awsDescribeAsgStatus name (Except.ok (some asg)),
                        Event.log ("📊 ASG instances: " ++
                          toString ((asg.instances.filter
                            (fun i => i.lifecycleState == "InService")).length) ++ "/" ++
                          toString asg.instances.length ++ " in service, target: " ++
                          toString tc) "cyan",
                        Event.log ("✅ ASG scaled up to " ++ toString tc) "green"], c,
                       Except.ok ()⟩ := by
                    simp only [waitForAutoScalingGroupLoop]
                    rw [bind_apply_ok _ (callAwsT_apply _ _ c), hcall]
                    simp [M.bind, bind_eq, logM, htc, hge]
                  rw [heq]
                  exact errorsLogged_cons rfl (errorsLogged_cons rfl rfl)
                · have heq : waitForAutoScalingGroupLoop env name tc (fuel + 1) c =
                      ⟨[Event.awsDescribeAsgStatus name (Except.ok (some asg)),
                        Event.log ("📊 ASG instances: " ++
                          toString ((asg.instances.filter
                            (fun i => i.lifecycleState == "InService")).length) ++ "/" ++
                          toString asg.instances.length ++ " in service, target: " ++
                          toString tc) "cyan",
                        Event.sleep POLL_INTERVAL_MS] ++ esR, cR, Except.ok ()⟩ := by
                    simp only [waitForAutoScalingGroupLoop]
                    rw [bind_apply_ok _ (callAwsT_apply _ _ c), hcall]
                    simp [M.bind, bind_eq, logM, sleepM, hR, htc, hge]
                  rw [heq]
                  simp only [out_events_mk, List.cons_append, List.nil_append]
                  exact errorsLogged_cons rfl (errorsLogged_cons rfl (errorsLogged_cons rfl ih))

/-- Claim C3 (amended): every failed per-entity start/stop call and every
failed describe call in the capacity-pool and target-health poll loops is
immediately followed by a warning-or-higher log line; a failed describe
inside the flow wait loop, however, is swallowed silently — the loop just
continues, as the concrete trace in the last conjunct shows. -/
theorem c3_errors_logged :
    (∀ (env : Env) (flows : List Flow) (c : Nat),
      errorsLogged ((startFlowsEach env flows) c).events = true ∧
      errorsLogged ((stopFlowsEach env flows) c).events = true) ∧
    (∀ (env : Env) (channels : List Channel) (c : Nat),
      errorsLogged ((startChannelsEach env channels) c).events = true ∧
      errorsLogged ((stopChannelsEach env channels) c).events = true) ∧
    (∀ (env : Env) (tgArn : String) (fuel c : Nat),
      errorsLogged ((waitForTargetsHealthyLoop env tgArn fuel) c).events = true) ∧
    (∀ (env : Env) (name : String) (tc fuel c : Nat),
      errorsLogged ((waitForAutoScalingGroupLoop env name tc fuel) c).events = true) ∧
    ((waitForFlowsLoop envFlowDescribeFails [⟨"Flow1FlowArn", "arn-flow1"⟩] "ACTIVE" 2) 0).events =
      [Event.awsDescribeFlow "arn-flow1" (Except.error "Command failed: connection timed out"),
       Event.sleep POLL_INTERVAL_MS,
       Event.awsDescribeFlow "arn-flow1" (Except.ok (some "ACTIVE")),
       Event.log "✅ Flows ready" "green"] ∧
    errorsLogged
      ((waitForFlowsLoop envFlowDescribeFails [⟨"Flow1FlowArn", "arn-flow1"⟩] "ACTIVE" 2) 0).events =
      false :=
  ⟨fun env flows c => ⟨errorsLogged_startFlowsEach env flows c,
      errorsLogged_stopFlowsEach env flows c⟩,
   fun env channels c => ⟨errorsLogged_startChannelsEach env channels c,
      errorsLogged_stopChannelsEach env channels c⟩,
   fun env tgArn fuel c => errorsLogged_waitForTargetsHealthyLoop env tgArn fuel c,
   fun env name tc fuel c => errorsLogged_waitForAutoScalingGroupLoop env name tc fuel c,
   rfl, rfl⟩

theorem option_some_beq (a b : String) : ((some a == some b) : Bool) = (a == b) := rfl

theorem option_none_beq (b : String) : (((none : Option String) == some b) : Bool) = false := rfl

/-- A flow check round emits only describe events, does not advance the
clock, and never fails. -/
theorem checkFlowsReady_out (env : Env) (ts : String) :
    ∀ flows c, ∃ es b, (checkFlowsReady env ts flows) c = ⟨es, c, Except.ok b⟩
  | [], c => ⟨[], true, rfl⟩
  | flow :: rest, c => by
      obtain ⟨esR, b, hR⟩ := checkFlowsReady_out env ts rest c
      cases hd : env.describeFlow c flow.arn with
      | ok statusOpt =>
          cases hcond : (!(statusOpt == some ts) && !(statusOpt == some "ERROR")) with
          | true =>
              refine ⟨[Event.awsDescribeFlow flow.arn (Except.ok statusOpt)], false, ?_⟩
              simp only [checkFlowsReady]
              rw [bind_apply_ok _ (callAwsT_apply _ _ c), hd]
              simp [M.bind, M.pure, bind_eq, hcond]
          | false =>
              refine ⟨[Event.awsDescribeFlow flow.arn (Except.ok statusOpt)] ++ esR, b, ?_⟩
              simp only [checkFlowsReady]
              rw [bind_apply_ok _ (callAwsT_apply _ _ c), hd]
              simp [M.bind, M.pure, bind_eq, hcond, hR]
      | error m =>
          refine ⟨[Event.awsDescribeFlow flow.arn (Except.error m)], false, ?_⟩
          simp only [checkFlowsReady]
          rw [bind_apply_ok _ (callAwsT_apply _ _ c), hd]
          simp [M.bind, M.pure, bind_eq]

/-- The flow check round returns true exactly when every flow is observed,
at this clock, in the target state or `ERROR`. -/
theorem checkFlowsReady_spec (env : Env) (ts : String) :
    ∀ flows c, ((checkFlowsReady env ts flows) c).result =
      Except.ok (flows.all (flowObservedReady env ts c))
  | [], _ => rfl
  | flow :: rest, c => by
      have ih := checkFlowsReady_spec env ts rest c
      simp only [checkFlowsReady]
      rw [bind_apply_ok _ (callAwsT_apply _ _ c)]
      cases hd : env.describeFlow c flow.arn with
      | ok statusOpt =>
          cases statusOpt with
          | some s =>
              by_cases h1 : s = ts
              · subst h1
                simp [M.bind, M.pure, bind_eq, ih, List.all_cons, flowObservedReady, hd]
              · by_cases h2 : s = "ERROR"
                · subst h2
                  simp [M.bind, M.pure, bind_eq, ih, List.all_cons, flowObservedReady, hd, h1]
                · simp [M.bind, M.pure, bind_eq, List.all_cons, flowObservedReady, hd, h1, h2]
          | none => simp [M.bind, M.pure, bind_eq, List.all_cons, flowObservedReady, hd]
      | error m => simp [M.bind, M.pure, bind_eq, List.all_cons, flowObservedReady, hd]

/-- The flow wait loop never fails and always ends with one of its two
completion markers: the convergence log or the timeout warning. -/
theorem waitForFlowsLoop_done (env : Env) (flows : List Flow) (ts : String) :
    ∀ fuel c, ∃ es c', (waitForFlowsLoop env flows ts fuel) c = ⟨es, c', Except.ok ()⟩ ∧
      ∃ e, es.getLast? = some e ∧ isFlowWaitDone e = true
  | 0, c => ⟨[Event.log "⚠️  Timeout waiting for flows" "yellow"], c, rfl, _, rfl, by decide⟩
  | fuel + 1, c => by
      obtain ⟨esC, b, hC⟩ := checkFlowsReady_out env ts flows c
      cases b with
      | true =>
          refine ⟨esC ++ [Event.log "✅ Flows ready" "green"], c, ?_, _,
            List.getLast?_append_of_ne_nil _ (by simp), by decide⟩
          simp only [waitForFlowsLoop]
          rw [bind_apply_ok _ hC]
          simp [M.bind, bind_eq, logM]
      | false =>
          obtain ⟨esR, cR, hR, e, hlast, hmark⟩ := waitForFlowsLoop_done env flows ts fuel (c + 1)
          have hne : esR ≠ [] := by
            intro h0
            rw [h0] at hlast
            simp at hlast
          refine ⟨esC ++ ([Event.sleep POLL_INTERVAL_MS] ++ esR), cR, ?_, e, ?_, hmark⟩
          · simp only [waitForFlowsLoop]
            rw [bind_apply_ok _ hC]
            simp [M.bind, bind_eq, sleepM, hR]
          · rw [List.getLast?_append_of_ne_nil _ (by simp [hne]),
              List.getLast?_append_of_ne_nil _ hne]
            exact hlast

theorem kinds_events {α : Type} {ks : List Nat} {x : M α} (h : KindsIn ks x) {c c' : Nat}
    {es : List Event} {r : Except String α} (hx : x c = ⟨es, c', r⟩) :
    ∀ e ∈ es, e.kind ∈ ks := by
  intro e he
  have hh := h c e
  rw [hx] at hh
  exact hh he

theorem kind_ne_ten {j : Nat} {ks : List Nat} (hj : j ∈ ks) (h10 : (10 : Nat) ∉ ks) : j ≠ 10 :=
  fun he => h10 (he ▸ hj)

/-- Claim C1 (amended): in `start()` (with discovery and the capacity call
succeeding, and at least one discovered flow) every channel-start call
comes strictly after the flow-wait stage has completed — the trace splits
as `A ++ B` where `A` ends with a flow-wait completion marker (the
convergence log or the timeout warning) and contains no channel-start
call; and the flow wait's convergence test accepts exactly those rounds in
which every flow is observed in the target state or `ERROR`.  (The claim
as stated is false: on a timeout, or when a flow reports `ERROR`, the
channel starts are issued although no flow was ever observed Active.) -/
theorem c1_amended (env : Env) (cfg : Config) (c cD : Nat) (esD : List Event)
    (st : ManagerState)
    (hd : discoverResources env cfg c = ⟨esD, cD, Except.ok st⟩)
    (hcap : ∀ n k, env.setDesiredCapacity n k = Except.ok ())
    (hne : st.flows ≠ []) :
    (∃ A B, (start env cfg c).events = A ++ B ∧
      (∃ e, A.getLast? = some e ∧ isFlowWaitDone e = true) ∧
      A.all (fun e => !(isStartChannelEv e)) = true) ∧
    (∀ flows c', ((checkFlowsReady env "ACTIVE" flows) c').result =
      Except.ok (flows.all (flowObservedReady env "ACTIVE" c'))) := by
  refine ⟨?_, fun flows c' => checkFlowsReady_spec env "ACTIVE" flows c'⟩
  obtain ⟨es2, c2, a2, h2⟩ := nf_setAutoScalingGroupCapacity st 2 hcap cD
  cases a2
  obtain ⟨es3, c3, a3, h3⟩ := nf_waitForAutoScalingGroup env st 2 c2
  cases a3
  obtain ⟨es4, c4, a4, h4⟩ := nf_waitForTargetsHealthy env st c3
  cases a4
  obtain ⟨es5, c5, a5, h5⟩ := nf_startFlows env st.flows c4
  cases a5
  obtain ⟨esL, cL, hL, e0, hlast, hmark⟩ := waitForFlowsLoop_done env st.flows "ACTIVE" maxPolls c5
  have h6 : waitForFlows env st.flows "ACTIVE" c5 =
      ⟨[Event.log ("⏳ Waiting for flows to reach " ++ "ACTIVE" ++ "...") "yellow"] ++ esL,
       cL, Except.ok ()⟩ := by
    unfold waitForFlows
    rw [if_neg (by simp [List.length_eq_zero, hne])]
    exact seq_ok (logM_apply _ _ c5) hL
  obtain ⟨es7, c7, a7, h7⟩ := nf_startChannels env st.channels cL
  cases a7
  obtain ⟨es8, c8, a8, h8⟩ := nf_waitForChannels env st.channels "RUNNING" c7
  cases a8
  obtain ⟨es9, c9, a9, h9⟩ := nf_showStatus env st c8
  cases a9
  have hrun : start env cfg c =
      ⟨[Event.log "🚀 Starting streaming infrastructure" "green"] ++ (esD ++ (es2 ++ (es3 ++
        (es4 ++ (es5 ++ (([Event.log ("⏳ Waiting for flows to reach " ++ "ACTIVE" ++ "...")
          "yellow"] ++ esL) ++ (es7 ++ (es8 ++ ([Event.log "✅ Start complete" "green"] ++
        es9))))))))), c9, Except.ok ()⟩ := by
    unfold start
    exact seq_ok (logM_apply _ _ c) (seq_ok hd (seq_ok h2 (seq_ok h3 (seq_ok h4
      (seq_ok h5 (seq_ok h6 (seq_ok h7 (seq_ok h8 (seq_ok (logM_apply _ _ c8) h9)))))))))
  have hLne : esL ≠ [] := by
    intro h0
    rw [h0] at hlast
    simp at hlast
  refine ⟨[Event.log "🚀 Starting streaming infrastructure" "green"] ++ (esD ++ (es2 ++ (es3 ++
      (es4 ++ (es5 ++ ([Event.log ("⏳ Waiting for flows to reach " ++ "ACTIVE" ++ "...")
        "yellow"] ++ esL)))))),
    es7 ++ (es8 ++ ([Event.log "✅ Start complete" "green"] ++ es9)), ?_, ⟨e0, ?_, hmark⟩, ?_⟩
  · rw [hrun]
    simp [List.append_assoc]
  · rw [List.getLast?_append_of_ne_nil _ (by simp [List.append_eq_nil, hLne]),
      List.getLast?_append_of_ne_nil _ (by simp [List.append_eq_nil, hLne]),
      List.getLast?_append_of_ne_nil _ (by simp [List.append_eq_nil, hLne]),
      List.getLast?_append_of_ne_nil _ (by simp [List.append_eq_nil, hLne]),
      List.getLast?_append_of_ne_nil _ (by simp [List.append_eq_nil, hLne]),
      List.getLast?_append_of_ne_nil _ (by simp [List.append_eq_nil, hLne]),
      List.getLast?_append_of_ne_nil _ hLne]
    exact hlast
  · rw [List.all_eq_true]
    intro e he
    have hk : e.kind ≠ 10 := by
      simp only [List.mem_append, List.mem_cons, List.not_mem_nil, or_false,
        List.mem_singleton] at he
      rcases he with rfl | h | h | h | h | h | rfl | h
      · decide
      · exact kind_ne_ten (kinds_events (kinds_discoverResources env cfg) hd e h) (by decide)
      · exact kind_ne_ten
          (kinds_events (kinds_setAutoScalingGroupCapacity env st 2) h2 e h) (by decide)
      · exact kind_ne_ten
          (kinds_events (kinds_waitForAutoScalingGroup env st 2) h3 e h) (by decide)
      · exact kind_ne_ten (kinds_events (kinds_waitForTargetsHealthy env st) h4 e h) (by decide)
      · exact kind_ne_ten (kinds_events (kinds_startFlows env st.flows) h5 e h) (by decide)
      · decide
      · exact kind_ne_ten
          (kinds_events (kinds_waitForFlowsLoop env st.flows "ACTIVE" maxPolls) hL e h)
          (by decide)
    simp [isStartChannelEv, hk]

/-- Witness for C1 (amended) at `envFlowError`: one discovered flow, and
the start trace splits before the first channel-start call at the
flow-wait marker. -/
theorem c1_amended_witness :
    ∃ A B, (start envFlowError cfg0 0).events = A ++ B ∧
      (∃ e, A.getLast? = some e ∧ isFlowWaitDone e = true) ∧
      A.all (fun e => !(isStartChannelEv e)) = true :=
  (c1_amended envFlowError cfg0 0 0 _ _ rfl (fun _ _ => rfl) (by decide)).1

/-- Counterexample to claim C1 as stated: on `envFlowError` the single
discovered flow is only ever observed in the `ERROR` state, yet `start()`
issues the channel-start call; the trace property "every channel-start call
is preceded by an ACTIVE observation of every discovered flow" is false. -/
theorem c1_counterexample :
    ((discoverResources envFlowError cfg0) 0).result =
      Except.ok ({ flows := [⟨"Flow1FlowArn", "arn-flow1"⟩],
                   channels := [⟨"StreamChannel", "ch-1"⟩],
                   autoScalingGroup := none } : ManagerState) ∧
    ((start envFlowError cfg0) 0).events.any isStartChannelEv = true ∧
    channelStartsAfterFlowsActive ((start envFlowError cfg0) 0).events ["arn-flow1"] = false :=
  ⟨rfl, rfl, rfl⟩

/-- Counterexample to claim C3 as stated: on `envFlowDescribeFails` the
flow describe call inside the `waitForFlows` poll loop fails once; the run
contains an errored call event, completes successfully, but the error is
swallowed with no log line (the next event is the sleep, not a warning). -/
theorem c3_counterexample :
    ((start envFlowDescribeFails cfg0) 0).events.any isErroredCall = true ∧
    ((start envFlowDescribeFails cfg0) 0).result = Except.ok () ∧
    errorsLogged ((start envFlowDescribeFails cfg0) 0).events = false :=
  ⟨rfl, rfl, rfl⟩

/-- Counterexample to claim C8 as stated: a transport failure of the
channel-list call does not make discovery fail — it is caught, and
discovery returns ok with an empty channel collection. -/
theorem c8_counterexample :
    envListChFail.listChannels =
      Except.error "Command failed: could not connect to the endpoint URL" ∧
    ((discoverResources envListChFail cfg0) 0).result =
      Except.ok ({ flows := [⟨"Flow1FlowArn", "arn-flow1"⟩],
                   channels := [],
                   autoScalingGroup := none } : ManagerState) :=
  ⟨rfl, rfl⟩

/-- Counterexample to claim C2 as stated: when `stop()` fails part-way
(discovery throws), `restart()` does not proceed to `start()` — the error
propagates, no start banner is logged and no start call is issued. -/
theorem c2_counterexample :
    ((restart envStacksFail cfg0) 0).result =
      Except.error "Failed to discover resources: Command failed: boom" ∧
    ((restart envStacksFail cfg0) 0).events.all
      (fun e => !(e == Event.log "🚀 Starting streaming infrastructure" "green")) = true ∧
    ((restart envStacksFail cfg0) 0).events.all
      (fun e => !(isStartFlowEv e) && !(isStartChannelEv e)) = true :=
  ⟨rfl, rfl, rfl⟩

end StreamManager
